import Mathlib

/-
Verification development for the lms_backend repository.

The definitions below are a shallow embedding of the billing, payment and
payroll logic of the repository (src/routers/payments.py, payroll.py,
attendance.py, students.py, models.py).  Database rows are Lean structures,
tables are lists, and each HTTP handler becomes a pure function from a
database state (plus its request parameters) to either an HTTP error code
or an updated state.  Monetary amounts (SQL Float columns) are modelled as
rationals.  Columns that no computation verified here ever reads
(password hashes, names, phone numbers, free-text descriptions, due dates,
JSON detail blobs) are omitted from the row structures.

Month strings of the shape YYYY-MM are modelled as pairs of numerals; the
SQL string comparisons (equality and lexicographic less-than) on
zero-padded month strings agree with the componentwise order used here.
-/

set_option linter.unusedVariables false

namespace LMS

/-- Calendar month, modelling the YYYY-MM strings stored in Payment.month. -/
structure Month where
  y : Nat
  m : Nat
deriving DecidableEq, Repr

/-- Calendar date, modelling SQL Date / DateTime values. -/
structure DateYMD where
  y : Nat
  m : Nat
  d : Nat
deriving DecidableEq, Repr

/-- The month a date falls in (to_char of the date in the SQL). -/
def monthOf (d : DateYMD) : Month := ⟨d.y, d.m⟩

/-- Strict order on months; string comparison of zero-padded YYYY-MM
strings (Payment.month < month in calculate_monthly_payments) agrees with
this componentwise order. -/
def monthLT (a b : Month) : Prop := a.y < b.y ∨ (a.y = b.y ∧ a.m < b.m)

instance (a b : Month) : Decidable (monthLT a b) :=
  inferInstanceAs (Decidable (_ ∨ _))

/-- models.UserRole. -/
inductive Role where
  | admin
  | teacher
  | manager
  | student
deriving DecidableEq, Repr

/-- models.PaymentStatus.  The partially-paid source value is rendered
here as partpaid, since its source name is a Lean keyword. -/
inductive PaymentStatus where
  | paid
  | partpaid
  | unpaid
deriving DecidableEq, Repr

/-- models.Course (id, price; the title and other display columns are
omitted). -/
structure Course where
  id : Nat
  price : ℚ
deriving DecidableEq, Repr

/-- models.Group: one course (nullable foreign key) and one teacher. -/
structure Group where
  id : Nat
  course_id : Option Nat
  teacher_id : Nat
deriving DecidableEq, Repr

/-- models.User.  The balance attribute is written and read by the payment
endpoints (payments.py) even though models.py does not declare the column;
it is part of the persisted row state, nullable, read through
(balance or 0). -/
structure User where
  id : Nat
  username : String
  role : Role
  group_id : Option Nat
  balance : Option ℚ
  teacher_percent : Option ℚ
  fee : Option ℚ
deriving DecidableEq, Repr

/-- models.Attendance.  The reason column is written by attendance.py and
read by the raw SQL in payments.py (coalesce(reason, '')); nullable. -/
structure Attendance where
  id : Nat
  student_id : Nat
  teacher_id : Nat
  group_id : Nat
  date : DateYMD
  status : String
  reason : Option String
deriving DecidableEq, Repr

/-- models.Payment (description, due_date, total_due, is_overdue omitted:
display-only). -/
structure Payment where
  id : Nat
  amount : ℚ
  student_id : Nat
  teacher_id : Option Nat
  group_id : Option Nat
  month : Month
  status : PaymentStatus
  debt_amount : ℚ
  created_at : DateYMD
  paid_at : Option Nat
deriving DecidableEq, Repr

/-- models.SalarySetting. -/
structure SalarySetting where
  id : Nat
  teacher_percent : ℚ
  manager_active_percent : ℚ
  manager_new_percent : ℚ
deriving DecidableEq, Repr

/-- models.Payroll (details JSON blob omitted). -/
structure PayrollRow where
  id : Nat
  user_id : Nat
  role : String
  month : Month
  earned : ℚ
  deductions : ℚ
  net : ℚ
  status : String
  paid_at : Option Nat
deriving DecidableEq, Repr

/-- models.PayrollPayment. -/
structure PayrollPayment where
  payroll_id : Nat
  paid_amount : ℚ
  paid_by : Nat
  paid_at : Nat
deriving DecidableEq, Repr

/-- The relational store. -/
structure DB where
  users : List User
  courses : List Course
  groups : List Group
  attendance : List Attendance
  payments : List Payment
  payroll : List PayrollRow
  payroll_payments : List PayrollPayment
  salary_settings : List SalarySetting
deriving DecidableEq, Repr

/-- Reading a nullable money column through Python (x or 0). -/
def orZero : Option ℚ → ℚ
  | none => 0
  | some q => q

/-- Round half to even at integer precision, as Python round does on the
mathematical value (binary floating-point representation effects are not
modelled). -/
def roundHalfEven (x : ℚ) : ℤ :=
  let f := ⌊x⌋
  let r := x - (f : ℚ)
  if r < 1/2 then f
  else if r > 1/2 then f + 1
  else if f % 2 = 0 then f else f + 1

/-- Python round(q, 2). -/
def pyRound2 (q : ℚ) : ℚ := ((roundHalfEven (q * 100) : ℤ) : ℚ) / 100

/-- A fresh primary key for a list of rows carrying an id. -/
def freshId (ids : List Nat) : Nat := ids.foldl max 0 + 1

/-- In-place mutation of the first row matched by a query (the ORM pattern
row = query(...).first(); row.field = ...; commit()). -/
def updateFirst {α : Type} (P : α → Bool) (f : α → α) : List α → List α
  | [] => []
  | x :: xs => if P x then f x :: xs else x :: updateFirst P f xs

/-- group.course.price if the group has a course else 0
(calculate_monthly_payments, create_payment). -/
def groupPrice (courses : List Course) (g : Group) : ℚ :=
  match g.course_id.bind (fun cid => courses.find? (fun c => decide (c.id = cid))) with
  | some c => c.price
  | none => 0

/-- The students enrolled in a group:
query(User).filter(User.group_id == group.id, User.role == student). -/
def studentsOf (users : List User) (gid : Nat) : List User :=
  users.filter (fun u => decide (u.group_id = some gid ∧ u.role = Role.student))

/-- The attendance rows of one student in one group falling in one month
(the raw SQL in calculate_monthly_payments). -/
def attRows (atts : List Attendance) (sid gid : Nat) (m : Month) : List Attendance :=
  atts.filter (fun a => decide (a.student_id = sid ∧ a.group_id = gid ∧ monthOf a.date = m))

/-- coalesce(reason, '') from the raw SQL. -/
def reasonStr (a : Attendance) : String := a.reason.getD ""

/-- Rows counted as attended (status present). -/
def attendedCount (rows : List Attendance) : Nat :=
  (rows.filter (fun r => decide (r.status = "present"))).length

/-- Rows counted as excused absences (absent with reason sababli). -/
def sababliCount (rows : List Attendance) : Nat :=
  (rows.filter (fun r => decide (r.status = "absent" ∧ reasonStr r = "sababli"))).length

/-- Rows counted as unexcused absences (absent with reason sababsiz). -/
def sababsizCount (rows : List Attendance) : Nat :=
  (rows.filter (fun r => decide (r.status = "absent" ∧ reasonStr r = "sababsiz"))).length

/-- total_lessons in calculate_monthly_payments:
attended + absent_sababli + absent_sababsiz. -/
def totalLessons (rows : List Attendance) : Nat :=
  attendedCount rows + sababliCount rows + sababsizCount rows

/-- monthly_due in calculate_monthly_payments: zero when the student has no
recorded lessons that month, the (rounded) full course price otherwise. -/
def monthlyDue (price : ℚ) (rows : List Attendance) : ℚ :=
  if totalLessons rows = 0 then 0 else pyRound2 price

/-- prev_unpaid in calculate_monthly_payments: the sum of debt_amount over
this student and group in strictly earlier months (NULL sum read as 0). -/
def prevUnpaid (pays : List Payment) (sid gid : Nat) (m : Month) : ℚ :=
  ((pays.filter (fun p =>
      decide (p.student_id = sid ∧ p.group_id = some gid ∧ monthLT p.month m))).map
    (fun p => p.debt_amount)).sum

/-- The (student, group, month) key used by the upsert in
calculate_monthly_payments. -/
def tripleP (sid gid : Nat) (m : Month) (p : Payment) : Bool :=
  decide (p.student_id = sid ∧ p.group_id = some gid ∧ p.month = m)

/-- Status written when an existing payment row is updated:
paid if the debt is cleared, else partly paid when some amount below the course
price has been paid, else unpaid. -/
def updStatus (fd price amount : ℚ) : PaymentStatus :=
  if fd ≤ 0 then .paid
  else if amount ≠ 0 ∧ amount < price then .partpaid
  else .unpaid

/-- Status written when a fresh payment row is created by
calculate_monthly_payments. -/
def newStatus (fd : ℚ) : PaymentStatus :=
  if fd > 0 then .unpaid else .paid

/-- The row created by calculate_monthly_payments when no payment exists yet
for (student, group, month). -/
def mkCalcPayment (pid sid gid tid : Nat) (m : Month) (fd : ℚ) (today : DateYMD) : Payment :=
  { id := pid, amount := 0, student_id := sid, teacher_id := some tid,
    group_id := some gid, month := m, status := newStatus fd,
    debt_amount := fd, created_at := today, paid_at := none }

/-- The body of the per-student loop of calculate_monthly_payments:
count the attendance of the month, recompute the debt including earlier months,
then update the first existing (student, group, month) row or append a new
one. -/
def studentStep (atts : List Attendance) (m : Month) (today : DateYMD)
    (gid tid : Nat) (price : ℚ) (pays : List Payment) (sid : Nat) : List Payment :=
  let rows := attRows atts sid gid m
  let fd := monthlyDue price rows + prevUnpaid pays sid gid m
  match pays.find? (tripleP sid gid m) with
  | some _ =>
      updateFirst (tripleP sid gid m)
        (fun p => { p with debt_amount := fd, status := updStatus fd price p.amount }) pays
  | none =>
      pays ++ [mkCalcPayment (freshId (pays.map (fun p => p.id))) sid gid tid m fd today]

/-- POST /payments/calculate-monthly (calculate_monthly_payments): for every
group with a positive course price, recompute per enrolled student the debt
row for the given month.  Groups with price at most 0 are skipped
(lessons_count is the constant 12 in the source, so only the price guard is
live).  groupLoop is the per-group body, calcMonthly the whole handler. -/
def groupLoop (db : DB) (m : Month) (today : DateYMD) (pays : List Payment)
    (g : Group) : List Payment :=
  let price := groupPrice db.courses g
  if price ≤ 0 then pays
  else
    (studentsOf db.users g.id).foldl
      (fun ps u => studentStep db.attendance m today g.id g.teacher_id price ps u.id)
      pays

def calcMonthly (db : DB) (m : Month) (today : DateYMD) : DB :=
  { db with payments := db.groups.foldl (groupLoop db m today) db.payments }

/-- The database state observed after a request: the new state on success,
the old state when the handler raised (FastAPI rolls the transaction back
on an HTTPException, so a raised request leaves the store untouched). -/
def resultState (db : DB) (r : Except Nat DB) : DB := r.toOption.getD db

/-- Group resolution in create_payment: an explicit group_id must exist
(404), otherwise the own group of the student is tried and silently dropped if
dangling. -/
def resolveGroup (db : DB) (student : User) (group_id : Option Nat) :
    Except Nat (Option Group) :=
  match group_id with
  | some gid =>
      match db.groups.find? (fun g => decide (g.id = gid)) with
      | none => .error 404
      | some g => .ok (some g)
  | none =>
      match student.group_id with
      | some sgid => .ok (db.groups.find? (fun g => decide (g.id = sgid)))
      | none => .ok none

/-- Status assigned by create_payment from the posted amount and the course
price. -/
def createStatus (price amount : ℚ) : PaymentStatus :=
  if price > 0 then
    if amount ≥ price then .paid
    else if 0 < amount ∧ amount < price then .partpaid
    else .unpaid
  else if amount > 0 then .paid else .unpaid

/-- POST /payments/ (create_payment).  Validates the caller and the student,
resolves the group and course price, then unconditionally appends a new
payment row; if the amount exceeds a positive course price the difference
is credited to the balance of the student.  The amount is required positive by
the request schema (Body gt=0), modelled as a 422 rejection. -/
def create_payment (db : DB) (callerRole : Role) (amount : ℚ)
    (student_id : Option Nat) (group_id : Option Nat) (month? : Option Month)
    (today : DateYMD) : Except Nat DB :=
  if ¬ amount > 0 then .error 422
  else if callerRole = Role.student then .error 403
  else
    match student_id with
    | none => .error 400
    | some sid =>
      match db.users.find? (fun u => decide (u.id = sid ∧ u.role = Role.student)) with
      | none => .error 404
      | some student =>
        match resolveGroup db student group_id with
        | .error e => .error e
        | .ok group =>
          let m := month?.getD (monthOf today)
          let price := match group with
            | some g => groupPrice db.courses g
            | none => 0
          let newPay : Payment :=
            { id := freshId (db.payments.map (fun p => p.id)), amount := amount,
              student_id := sid,
              teacher_id := group.map (fun g => g.teacher_id),
              group_id := group.map (fun g => g.id), month := m,
              status := createStatus price amount,
              debt_amount := max (price - amount) 0,
              created_at := today, paid_at := none }
          let users' :=
            if price ≠ 0 ∧ amount > price then
              updateFirst (fun u => decide (u.id = sid ∧ u.role = Role.student))
                (fun u => { u with balance := some (orZero u.balance + (amount - price)) })
                db.users
            else db.users
          .ok { db with payments := db.payments ++ [newPay], users := users' }

/-- The course price seen by mark_payment_as_paid:
(payment.group.course.price if payment.group and payment.group.course
else 0) or 0. -/
def resolvePrice (db : DB) (p : Payment) : ℚ :=
  match p.group_id.bind (fun gid => db.groups.find? (fun g => decide (g.id = gid))) with
  | none => 0
  | some g => groupPrice db.courses g

/-- PUT /payments/mark-paid/payment_id (mark_payment_as_paid): add the
posted amount to the cumulative amount of the payment row, recompute the
remaining debt against the course price (zero whenever the price is zero),
and credit cumulative-amount-minus-price to the student whenever the
cumulative amount exceeds a nonzero price. -/
def mark_payment_as_paid (db : DB) (callerRole : Role) (payment_id : Nat)
    (amount : ℚ) (now : Nat) : Except Nat DB :=
  if ¬ (callerRole = Role.manager ∨ callerRole = Role.admin) then .error 403
  else if ¬ amount > 0 then .error 422
  else
    match db.payments.find? (fun p => decide (p.id = payment_id)) with
    | none => .error 404
    | some p =>
      let price := resolvePrice db p
      let newAmt := p.amount + amount
      let remaining := if price ≠ 0 then price - newAmt else 0
      let st := if remaining ≤ 0 then PaymentStatus.paid else PaymentStatus.partpaid
      let debt := if remaining ≤ 0 then 0 else remaining
      let payments' := updateFirst (fun q => decide (q.id = payment_id))
        (fun q => { q with
          amount := newAmt, status := st, debt_amount := debt,
          paid_at := some now }) db.payments
      let users' :=
        if price ≠ 0 ∧ newAmt > price then
          updateFirst (fun u => decide (u.id = p.student_id))
            (fun u => { u with balance := some (orZero u.balance + (newAmt - price)) })
            db.users
        else db.users
      .ok { db with payments := payments', users := users' }

/-- Python str.split on a dash, over the character list of the string. -/
def splitDash : List Char → List (List Char)
  | [] => [[]]
  | c :: cs =>
      let r := splitDash cs
      if c = '-' then [] :: r
      else
        match r with
        | h :: t => (c :: h) :: t
        | [] => [[c]]

/-- Decimal digit accumulation; none when a non-digit occurs or the list is
empty. -/
def natDigits? (ds : List Char) : Option Nat :=
  if ds = [] then none
  else ds.foldl (fun acc c =>
    acc.bind (fun n => if c.isDigit then some (n * 10 + (c.toNat - '0'.toNat)) else none))
    (some 0)

/-- Python int() applied to a piece of the month string: surrounding
whitespace is stripped, an optional sign precedes decimal digits.
(Unicode digits and underscore separators, which Python also accepts, are
not modelled; no claim depends on them.) -/
def pyInt? (cs : List Char) : Option Int :=
  let t := (((cs.dropWhile Char.isWhitespace).reverse).dropWhile Char.isWhitespace).reverse
  match t with
  | '+' :: ds => (natDigits? ds).map (fun n => (n : Int))
  | '-' :: ds => (natDigits? ds).map (fun n => -(n : Int))
  | ds => (natDigits? ds).map (fun n => (n : Int))

/-- parse_month from payroll.py: split the string on a dash into exactly two
int()-parsable pieces and build the first days of that month and of the
next one; any failure (wrong piece count, non-integer piece, or a
year/month outside the datetime constructor range 1..9999 / 1..12) raises
400. -/
def parse_month (s : String) : Except Nat (Month × Month) :=
  match splitDash s.data with
  | [a, b] =>
      match pyInt? a, pyInt? b with
      | some y, some mo =>
          if h : 1 ≤ y ∧ y ≤ 9999 ∧ 1 ≤ mo ∧ mo ≤ 12 then
            .ok (⟨y.toNat, mo.toNat⟩,
                 if mo = 12 then ⟨y.toNat + 1, 1⟩ else ⟨y.toNat, mo.toNat + 1⟩)
          else .error 400
      | _, _ => .error 400
  | _ => .error 400

/-- The salary settings row used by calculate_payroll: the row with the
greatest id, or a freshly defaulted row (models.SalarySetting defaults
50 / 10 / 25) when the table is empty. -/
def latestSetting (l : List SalarySetting) : SalarySetting :=
  match l.foldl (fun acc s =>
      match acc with
      | none => some s
      | some a => if s.id > a.id then some s else some a) none with
  | some s => s
  | none => { id := 1, teacher_percent := 50, manager_active_percent := 10,
              manager_new_percent := 25 }

/-- The groups taught by a teacher (Group.teacher_id == t.id). -/
def teacherGroupIds (groups : List Group) (tid : Nat) : List Nat :=
  (groups.filter (fun g => decide (g.teacher_id = tid))).map (fun g => g.id)

/-- Sum of payment amounts over the groups of the teacher whose created_at falls
in the month window [start, end); empty when the teacher has no groups. -/
def paymentsSumTeacher (pays : List Payment) (gids : List Nat) (m : Month) : ℚ :=
  if gids = [] then 0
  else ((pays.filter (fun p =>
      decide ((∃ gid ∈ gids, p.group_id = some gid) ∧ monthOf p.created_at = m))).map
    (fun p => p.amount)).sum

/-- Count of present attendance rows over the groups of the teacher in the month
window. -/
def presentCount (atts : List Attendance) (gids : List Nat) (m : Month) : Nat :=
  (atts.filter (fun a =>
    decide ((∃ gid ∈ gids, a.group_id = gid) ∧ a.status = "present" ∧
            monthOf a.date = m))).length

/-- Count of all attendance rows over the groups of the teacher in the month
window. -/
def totalAttCount (atts : List Attendance) (gids : List Nat) (m : Month) : Nat :=
  (atts.filter (fun a =>
    decide ((∃ gid ∈ gids, a.group_id = gid) ∧ monthOf a.date = m))).length

/-- attendance_rate in calculate_payroll: percent of present rows, 100 when
the teacher has no groups or no attendance rows that month. -/
def attendanceRate (atts : List Attendance) (gids : List Nat) (m : Month) : ℚ :=
  if gids = [] then 100
  else
    let tot := totalAttCount atts gids m
    if tot > 0 then (presentCount atts gids m : ℚ) / (tot : ℚ) * 100 else 100

/-- One teacher payroll row as built by the teacher loop of
calculate_payroll: earned is the payments of the month over the groups of the teacher
times the GLOBAL settings percentage (the per-teacher override column
User.teacher_percent is never consulted there), and the deduction scales
earned by the attendance shortfall. -/
def teacherPayrollRow (db : DB) (settings : SalarySetting) (m : Month)
    (rid : Nat) (t : User) : PayrollRow :=
  let gids := teacherGroupIds db.groups t.id
  let psum := paymentsSumTeacher db.payments gids m
  let rate := attendanceRate db.attendance gids m
  let earned := psum * (settings.teacher_percent / 100)
  let ded := earned * (1 - rate / 100)
  let net := earned - ded
  { id := rid, user_id := t.id, role := "teacher", month := m,
    earned := pyRound2 earned, deductions := pyRound2 ded, net := pyRound2 net,
    status := "pending", paid_at := none }

/-- The teacher rows appended by calculate_payroll, with ascending fresh
primary keys. -/
def mkTeacherRows (db : DB) (settings : SalarySetting) (m : Month) :
    Nat → List User → List PayrollRow
  | _, [] => []
  | i, t :: ts => teacherPayrollRow db settings m i t :: mkTeacherRows db settings m (i + 1) ts

/-- POST /payroll/calculate (calculate_payroll), teacher section: admin
only, parse the month string, fetch or default the salary settings, delete
the previous payroll rows of the month, and append one freshly computed pending
row per teacher.  The manager section of the handler (payroll.py lines
176-232) touches only rows with role manager and is not referenced by
anything proved here, so it is not embedded. -/
def calc_payroll_teachers (db : DB) (callerRole : Role) (monthStr : String) :
    Except Nat DB :=
  if ¬ callerRole = Role.admin then .error 403
  else
    match parse_month monthStr with
    | .error e => .error e
    | .ok (m, _) =>
      let settings := latestSetting db.salary_settings
      let sset' :=
        if db.salary_settings = [] then db.salary_settings ++ [settings]
        else db.salary_settings
      let payroll0 := db.payroll.filter (fun r => decide (¬ r.month = m))
      let teachers := db.users.filter (fun u => decide (u.role = Role.teacher))
      let rows := mkTeacherRows db settings m (freshId (payroll0.map (fun r => r.id))) teachers
      .ok { db with payroll := payroll0 ++ rows, salary_settings := sset' }

/-- POST /payroll/payroll_id/pay (pay_salary): admin only; a missing row is
404 and a row already marked paid is 400; otherwise the row is marked paid
with a timestamp and a PayrollPayment ledger entry is appended. -/
def pay_salary (db : DB) (callerRole : Role) (callerId : Nat)
    (payroll_id : Nat) (paid_amount : ℚ) (now : Nat) : Except Nat DB :=
  if ¬ callerRole = Role.admin then .error 403
  else
    match db.payroll.find? (fun r => decide (r.id = payroll_id)) with
    | none => .error 404
    | some row =>
      if row.status = "paid" then .error 400
      else
        .ok { db with
          payroll := updateFirst (fun r => decide (r.id = payroll_id))
            (fun r => { r with status := "paid", paid_at := some now }) db.payroll,
          payroll_payments := db.payroll_payments ++
            [{ payroll_id := row.id, paid_amount := paid_amount,
               paid_by := callerId, paid_at := now }] }

/-- POST /students/ (create_student): admin or manager only; a taken
username is rejected with 400 before anything is written; a named but
missing course is 404; otherwise a student row is appended whose fee is the
course price when that price is truthy, else the posted fee.  (The
StudentCourse enrollment table and the purely informational columns are
not modelled.) -/
def create_student (db : DB) (callerRole : Role) (username : String)
    (course_id group_id : Option Nat) (fee : Option ℚ) : Except Nat DB :=
  if ¬ (callerRole = Role.admin ∨ callerRole = Role.manager) then .error 403
  else if (db.users.find? (fun u => decide (u.username = username))).isSome then .error 400
  else
    let courseFee : Except Nat (Option ℚ) :=
      match course_id with
      | none => .ok none
      | some cid =>
          match db.courses.find? (fun c => decide (c.id = cid)) with
          | none => .error 404
          | some c => .ok (some c.price)
    match courseFee with
    | .error e => .error e
    | .ok cf =>
      let finalFee := match cf with
        | some v => if v ≠ 0 then some v else fee
        | none => fee
      let newU : User :=
        { id := freshId (db.users.map (fun u => u.id)), username := username,
          role := Role.student, group_id := group_id, balance := none,
          teacher_percent := none, fee := finalFee }
      .ok { db with users := db.users ++ [newU] }

/-- One posted attendance record of the request body of POST /attendance/. -/
structure AttRecordIn where
  student_id : Nat
  is_present : Bool
  reason : Option String
deriving DecidableEq, Repr

/-- The attendance rows built from the posted records; records naming an
unknown user are skipped, the rest get ascending fresh primary keys. -/
def mkAttRows (users : List User) (callerId gid : Nat) (d : DateYMD) :
    Nat → List AttRecordIn → List Attendance
  | _, [] => []
  | i, r :: rs =>
      if (users.find? (fun u => decide (u.id = r.student_id))).isSome then
        { id := i, student_id := r.student_id, teacher_id := callerId,
          group_id := gid, date := d,
          status := if r.is_present then "present" else "absent",
          reason := r.reason } :: mkAttRows users callerId gid d (i + 1) rs
      else mkAttRows users callerId gid d i rs

/-- POST /attendance/ (create_attendance): teachers, admins and managers
only; the group must exist; if any attendance row already exists for this
group and date the request is rejected with 400 before anything is written;
otherwise one row per known student is appended. -/
def create_attendance (db : DB) (callerRole : Role) (callerId : Nat)
    (group_id : Nat) (records : List AttRecordIn) (date? : Option DateYMD)
    (today : DateYMD) : Except Nat DB :=
  if ¬ (callerRole = Role.teacher ∨ callerRole = Role.admin ∨ callerRole = Role.manager) then
    .error 403
  else
    match db.groups.find? (fun g => decide (g.id = group_id)) with
    | none => .error 404
    | some _ =>
      let d := date?.getD today
      if (db.attendance.find? (fun a => decide (a.group_id = group_id ∧ a.date = d))).isSome then
        .error 400
      else
        let rows := mkAttRows db.users callerId group_id d
          (freshId (db.attendance.map (fun a => a.id))) records
        .ok { db with attendance := db.attendance ++ rows }

/-- Modelled from the spec words of claim C1, for comparison with the code:
the chargeable-lesson count is the number of attended lessons plus
unexcused (sababsiz) absences; excused (sababli) absences are NOT counted. -/
def specChargeableCount (rows : List Attendance) : Nat :=
  attendedCount rows + sababsizCount rows

/-- Modelled from the spec words of claim C2, for comparison with the code:
the debt of the month is the charge plus carried debt minus the credit balance,
floored at zero. -/
def specCarryForwardDebt (charge prevDebt credit : ℚ) : ℚ :=
  max (charge + prevDebt - credit) 0

/-- Modelled from the spec words of claim C5, for comparison with the code:
the percentage applied to a teacher is the per-teacher override when set,
the global default otherwise. -/
def claimTeacherPercent (t : User) (s : SalarySetting) : ℚ :=
  t.teacher_percent.getD s.teacher_percent

/-- Modelled from the spec words of claim C9, for comparison with the code:
a string of the form YYYY-MM is four digits, a dash, and two digits. -/
def specFormYYYYMM (s : String) : Bool :=
  match s.data with
  | [a, b, c, d, e, f, g] =>
      a.isDigit && b.isDigit && c.isDigit && d.isDigit && e = '-' &&
      f.isDigit && g.isDigit
  | _ => false

/-- Concrete store for claim C1: one course at price 100, one group, one
enrolled student whose only attendance row in 2025-03 is an excused
(sababli) absence, no payment rows. -/
def dbC1 : DB :=
  { users := [{ id := 1, username := "s1", role := Role.student,
                group_id := some 1, balance := none, teacher_percent := none,
                fee := none }],
    courses := [{ id := 1, price := 100 }],
    groups := [{ id := 1, course_id := some 1, teacher_id := 9 }],
    attendance := [{ id := 1, student_id := 1, teacher_id := 9, group_id := 1,
                     date := ⟨2025, 3, 5⟩, status := "absent",
                     reason := some "sababli" }],
    payments := [], payroll := [], payroll_payments := [], salary_settings := [] }


/-- Concrete store for claim C4: one course at price 100, one group, one
enrolled student, no payments yet. -/
def dbC4 : DB :=
  { users := [{ id := 1, username := "s1", role := Role.student,
                group_id := some 1, balance := none, teacher_percent := none,
                fee := none }],
    courses := [{ id := 1, price := 100 }],
    groups := [{ id := 1, course_id := some 1, teacher_id := 9 }],
    attendance := [], payments := [], payroll := [], payroll_payments := [],
    salary_settings := [] }

/-- Concrete store for claims C7 and C10 witnesses: one course at price
100, one group, one student who has already paid 150 on payment row 7
(fully paid, debt 0) and carries the 50 previously credited; plus a second
group with no course and its payment row 8. -/
def dbC7 : DB :=
  { users := [{ id := 1, username := "s1", role := Role.student,
                group_id := some 1, balance := some 50, teacher_percent := none,
                fee := none }],
    courses := [{ id := 1, price := 100 }],
    groups := [{ id := 1, course_id := some 1, teacher_id := 9 },
               { id := 2, course_id := none, teacher_id := 9 }],
    attendance := [],
    payments := [{ id := 7, amount := 150, student_id := 1, teacher_id := some 9,
                   group_id := some 1, month := ⟨2025, 3⟩,
                   status := PaymentStatus.paid, debt_amount := 0,
                   created_at := ⟨2025, 3, 1⟩, paid_at := none },
                 { id := 8, amount := 0, student_id := 1, teacher_id := some 9,
                   group_id := some 2, month := ⟨2025, 3⟩,
                   status := PaymentStatus.unpaid, debt_amount := 0,
                   created_at := ⟨2025, 3, 1⟩, paid_at := none }],
    payroll := [], payroll_payments := [], salary_settings := [] }

/-- The total credited balance across all users, through (balance or 0). -/
def sumBalances (db : DB) : ℚ := (db.users.map (fun u => orZero u.balance)).sum

/-- Row-wise relation: same user, balance not decreased. -/
def balRel (u u' : User) : Prop :=
  u.id = u'.id ∧ orZero u.balance ≤ orZero u'.balance

/-- The store mark_payment_as_paid produces from dbC7 for payment 7 and a
further amount of 10: cumulative amount 160, fully paid, and 60 more
credited on top of the 50 already credited. -/
def dbC7m : DB :=
  { users := [{ id := 1, username := "s1", role := Role.student,
                group_id := some 1, balance := some 110, teacher_percent := none,
                fee := none }],
    courses := [{ id := 1, price := 100 }],
    groups := [{ id := 1, course_id := some 1, teacher_id := 9 },
               { id := 2, course_id := none, teacher_id := 9 }],
    attendance := [],
    payments := [{ id := 7, amount := 160, student_id := 1, teacher_id := some 9,
                   group_id := some 1, month := ⟨2025, 3⟩,
                   status := PaymentStatus.paid, debt_amount := 0,
                   created_at := ⟨2025, 3, 1⟩, paid_at := some 99 },
                 { id := 8, amount := 0, student_id := 1, teacher_id := some 9,
                   group_id := some 2, month := ⟨2025, 3⟩,
                   status := PaymentStatus.unpaid, debt_amount := 0,
                   created_at := ⟨2025, 3, 1⟩, paid_at := none }],
    payroll := [], payroll_payments := [], salary_settings := [] }

/-- Concrete store for claim C8: one pending payroll row with id 3. -/
def dbC8 : DB :=
  { users := [], courses := [], groups := [], attendance := [], payments := [],
    payroll := [{ id := 3, user_id := 2, role := "teacher", month := ⟨2025, 3⟩,
                  earned := 500, deductions := 0, net := 500,
                  status := "pending", paid_at := none }],
    payroll_payments := [], salary_settings := [] }

/-- The store pay_salary produces from dbC8: the row marked paid and one
ledger entry. -/
def dbC8p : DB :=
  { users := [], courses := [], groups := [], attendance := [], payments := [],
    payroll := [{ id := 3, user_id := 2, role := "teacher", month := ⟨2025, 3⟩,
                  earned := 500, deductions := 0, net := 500,
                  status := "paid", paid_at := some 77 }],
    payroll_payments := [{ payroll_id := 3, paid_amount := 500, paid_by := 1,
                           paid_at := 77 }],
    salary_settings := [] }

/-- Concrete store for claim C5: global teacher percent 50, one teacher
(id 2) with a personal override of 80 percent, teaching one group whose
course costs 100, with one payment of 100 received in 2025-03 and no
attendance rows. -/
def dbC5 : DB :=
  { users := [{ id := 2, username := "t1", role := Role.teacher,
                group_id := none, balance := none, teacher_percent := some 80,
                fee := none }],
    courses := [{ id := 1, price := 100 }],
    groups := [{ id := 1, course_id := some 1, teacher_id := 2 }],
    attendance := [],
    payments := [{ id := 1, amount := 100, student_id := 3, teacher_id := some 2,
                   group_id := some 1, month := ⟨2025, 3⟩,
                   status := PaymentStatus.paid, debt_amount := 0,
                   created_at := ⟨2025, 3, 4⟩, paid_at := none }],
    payroll := [], payroll_payments := [],
    salary_settings := [{ id := 1, teacher_percent := 50,
                          manager_active_percent := 10,
                          manager_new_percent := 25 }] }

/-- The store the teacher section of calculate_payroll produces from dbC5
for 2025-03: one pending row earned 50 (the global 50 percent of the 100
received; the personal override of 80 percent is ignored). -/
def dbC5p : DB :=
  { users := [{ id := 2, username := "t1", role := Role.teacher,
                group_id := none, balance := none, teacher_percent := some 80,
                fee := none }],
    courses := [{ id := 1, price := 100 }],
    groups := [{ id := 1, course_id := some 1, teacher_id := 2 }],
    attendance := [],
    payments := [{ id := 1, amount := 100, student_id := 3, teacher_id := some 2,
                   group_id := some 1, month := ⟨2025, 3⟩,
                   status := PaymentStatus.paid, debt_amount := 0,
                   created_at := ⟨2025, 3, 4⟩, paid_at := none }],
    payroll := [{ id := 1, user_id := 2, role := "teacher", month := ⟨2025, 3⟩,
                  earned := 50, deductions := 0, net := 50,
                  status := "pending", paid_at := none }],
    payroll_payments := [],
    salary_settings := [{ id := 1, teacher_percent := 50,
                          manager_active_percent := 10,
                          manager_new_percent := 25 }] }

/-- Concrete store for claim C9: one user named bob, one group (id 1) that
already has attendance on 2025-03-07. -/
def dbC9 : DB :=
  { users := [{ id := 1, username := "bob", role := Role.student,
                group_id := none, balance := none, teacher_percent := none,
                fee := none }],
    courses := [], groups := [{ id := 1, course_id := none, teacher_id := 9 }],
    attendance := [{ id := 1, student_id := 5, teacher_id := 9, group_id := 1,
                     date := ⟨2025, 3, 7⟩, status := "present", reason := none }],
    payments := [], payroll := [], payroll_payments := [], salary_settings := [] }

/-- Concrete store for claim C2: one course at price 100, one group, one
enrolled student carrying a credit balance of 50, one present attendance
row in 2025-03, no payment rows. -/
def dbC2 : DB :=
  { users := [{ id := 1, username := "s1", role := Role.student,
                group_id := some 1, balance := some 50, teacher_percent := none,
                fee := none }],
    courses := [{ id := 1, price := 100 }],
    groups := [{ id := 1, course_id := some 1, teacher_id := 9 }],
    attendance := [{ id := 1, student_id := 1, teacher_id := 9, group_id := 1,
                     date := ⟨2025, 3, 5⟩, status := "present", reason := none }],
    payments := [], payroll := [], payroll_payments := [], salary_settings := [] }

/-- Concrete store for claim C6: a group whose course price is 0, with one
enrolled student who has no attendance and no payments. -/
def dbC6 : DB :=
  { users := [{ id := 1, username := "s1", role := Role.student,
                group_id := some 1, balance := none, teacher_percent := none,
                fee := none }],
    courses := [{ id := 1, price := 0 }],
    groups := [{ id := 1, course_id := some 1, teacher_id := 9 }],
    attendance := [], payments := [], payroll := [], payroll_payments := [],
    salary_settings := [] }

/-- Concrete store for the C6 witness: like dbC6 but with a positive
course price. -/
def dbC6w : DB :=
  { users := [{ id := 1, username := "s1", role := Role.student,
                group_id := some 1, balance := none, teacher_percent := none,
                fee := none }],
    courses := [{ id := 1, price := 100 }],
    groups := [{ id := 1, course_id := some 1, teacher_id := 9 }],
    attendance := [], payments := [], payroll := [], payroll_payments := [],
    salary_settings := [] }

/-- One iteration of the student loop of calculate_monthly_payments, as an
explicit step descriptor: group id, group teacher, course price, student
id. -/
structure StepD where
  gid : Nat
  tid : Nat
  price : ℚ
  sid : Nat

/-- Running one step descriptor on a payments table. -/
def applyStep (atts : List Attendance) (m : Month) (today : DateYMD)
    (pays : List Payment) (σ : StepD) : List Payment :=
  studentStep atts m today σ.gid σ.tid σ.price pays σ.sid

/-- The step descriptors one group contributes. -/
def groupSteps (courses : List Course) (users : List User) (g : Group) :
    List StepD :=
  if groupPrice courses g ≤ 0 then []
  else (studentsOf users g.id).map
    (fun u => ⟨g.id, g.teacher_id, groupPrice courses g, u.id⟩)

/-- All step descriptors of one calculate-monthly run, in execution order. -/
def stepsOf (db : DB) : List StepD :=
  db.groups.flatMap (groupSteps db.courses db.users)

/-- Two steps touching different (student, group) keys. -/
def pairNe (a b : StepD) : Prop := a.sid ≠ b.sid ∨ a.gid ≠ b.gid

/-- The debt calculate_monthly_payments assigns for a step given the
current payments table. -/
def fdOf (atts : List Attendance) (pays : List Payment) (m : Month)
    (σ : StepD) : ℚ :=
  monthlyDue σ.price (attRows atts σ.sid σ.gid m) + prevUnpaid pays σ.sid σ.gid m

/-- The payments table already carries the values the step would write:
the first (student, group, month) row has the recomputed debt and the
recomputed status. -/
def SettledFor (atts : List Attendance) (m : Month) (pays : List Payment)
    (σ : StepD) : Prop :=
  ∃ p0, pays.find? (tripleP σ.sid σ.gid m) = some p0 ∧
    p0.debt_amount = fdOf atts pays m σ ∧
    p0.status = updStatus (fdOf atts pays m σ) σ.price p0.amount

/-- Updating the first match with a function that fixes it leaves the list
unchanged. -/
theorem updateFirst_of_find?_eq {α : Type} (P : α → Bool) (f : α → α)
    (l : List α) (x : α) (hfind : l.find? P = some x) (hfx : f x = x) :
    updateFirst P f l = l := by
  induction l with
  | nil => simp at hfind
  | cons a as ih =>
      by_cases ha : P a
      · rw [List.find?_cons_of_pos _ ha] at hfind
        injection hfind with hax
        subst hax
        simp [updateFirst, ha, hfx]
      · rw [List.find?_cons_of_neg _ (by simp [ha])] at hfind
        simp [updateFirst, ha, ih hfind]

/-- Finding after updating the first match, when the update keeps the
element matching. -/
theorem find?_updateFirst {α : Type} (P : α → Bool) (f : α → α) (l : List α)
    (hP : ∀ a, P a = true → P (f a) = true) :
    (updateFirst P f l).find? P = (l.find? P).map f := by
  induction l with
  | nil => simp [updateFirst]
  | cons a as ih =>
      by_cases ha : P a
      · simp [updateFirst, ha, List.find?_cons_of_pos _ (hP a ha),
          List.find?_cons_of_pos _ ha]
      · simp only [updateFirst, if_neg ha]
        rw [List.find?_cons_of_neg _ (by simp [ha]),
          List.find?_cons_of_neg _ (by simp [ha]), ih]

/-- Updating first matches of a disjoint predicate does not change what
another predicate finds. -/
theorem find?_updateFirst_disjoint {α : Type} (P T : α → Bool) (f : α → α)
    (l : List α) (h : ∀ a, T a = true → P a = false ∧ P (f a) = false) :
    (updateFirst T f l).find? P = l.find? P := by
  induction l with
  | nil => simp [updateFirst]
  | cons a as ih =>
      by_cases ha : T a
      · have := h a ha
        simp only [updateFirst, if_pos ha]
        rw [List.find?_cons_of_neg _ (by simp [this.2]),
          List.find?_cons_of_neg _ (by simp [this.1])]
      · simp only [updateFirst, if_neg ha]
        by_cases hpa : P a
        · rw [List.find?_cons_of_pos _ hpa, List.find?_cons_of_pos _ hpa]
        · rw [List.find?_cons_of_neg _ (by simp [hpa]),
            List.find?_cons_of_neg _ (by simp [hpa]), ih]

/-- Updating first matches of a predicate that is invisible to a filter
does not change the filter. -/
theorem filter_updateFirst {α : Type} (Q T : α → Bool) (f : α → α)
    (l : List α) (h : ∀ a, T a = true → Q a = false ∧ Q (f a) = false) :
    (updateFirst T f l).filter Q = l.filter Q := by
  induction l with
  | nil => simp [updateFirst]
  | cons a as ih =>
      by_cases ha : T a
      · have := h a ha
        simp [updateFirst, if_pos ha, List.filter_cons, this.1, this.2]
      · simp [updateFirst, if_neg ha, List.filter_cons, ih]

/-- Appending an element the predicate rejects does not change what find?
returns. -/
theorem find?_append_of_neg {α : Type} (P : α → Bool) (l : List α) (x : α)
    (hx : P x = false) : (l ++ [x]).find? P = l.find? P := by
  induction l with
  | nil => simp [hx]
  | cons a as ih =>
      by_cases ha : P a
      · simp [List.find?_cons_of_pos _ ha]
      · rw [List.cons_append, List.find?_cons_of_neg _ (by simp [ha]),
          List.find?_cons_of_neg _ (by simp [ha]), ih]

/-- Appending an element the predicate rejects does not change the filter. -/
theorem filter_append_of_neg {α : Type} (Q : α → Bool) (l : List α) (x : α)
    (hx : Q x = false) : (l ++ [x]).filter Q = l.filter Q := by
  rw [List.filter_append]
  simp [List.filter_cons, hx]

/-- find? over an appended singleton when the front part fails. -/
theorem find?_append_of_none {α : Type} (P : α → Bool) (l : List α) (x : α)
    (hl : l.find? P = none) (hx : P x = true) :
    (l ++ [x]).find? P = some x := by
  induction l with
  | nil => simp [hx]
  | cons a as ih =>
      by_cases ha : P a
      · rw [List.find?_cons_of_pos _ ha] at hl
        exact absurd hl (by simp)
      · rw [List.find?_cons_of_neg _ (by simp [ha])] at hl
        rw [List.cons_append, List.find?_cons_of_neg _ (by simp [ha]), ih hl]

/-- Sum of a projection after an updateFirst that hits element x. -/
theorem sum_map_updateFirst (g : User → ℚ) (P : User → Bool) (f : User → User)
    (l : List User) (x : User) (hfind : l.find? P = some x) :
    ((updateFirst P f l).map g).sum = (l.map g).sum - g x + g (f x) := by
  induction l with
  | nil => simp at hfind
  | cons a as ih =>
      by_cases ha : P a
      · rw [List.find?_cons_of_pos _ ha] at hfind
        injection hfind with hax
        subst hax
        simp [updateFirst, ha]
        ring
      · rw [List.find?_cons_of_neg _ (by simp [ha])] at hfind
        simp only [updateFirst, if_neg ha, List.map_cons, List.sum_cons, ih hfind]
        ring

/-- When nothing matches, updateFirst is the identity. -/
theorem updateFirst_of_find?_none {α : Type} (P : α → Bool) (f : α → α)
    (l : List α) (hfind : l.find? P = none) : updateFirst P f l = l := by
  induction l with
  | nil => rfl
  | cons a as ih =>
      by_cases ha : P a
      · rw [List.find?_cons_of_pos _ ha] at hfind
        exact absurd hfind (by simp)
      · rw [List.find?_cons_of_neg _ (by simp [ha])] at hfind
        simp [updateFirst, ha, ih hfind]

theorem monthLT_irrefl (m : Month) : ¬ monthLT m m := by
  simp [monthLT]

/-- The update written by a student step does not move a row between the
key predicates: student, group, month and amount are untouched. -/
theorem tripleP_upd (sid gid : Nat) (m : Month) (p : Payment) (d : ℚ)
    (s : PaymentStatus) :
    tripleP sid gid m { p with debt_amount := d, status := s } = tripleP sid gid m p := rfl

/-- Bool form of step-key membership. -/
theorem tripleP_true_iff (sid gid : Nat) (m : Month) (p : Payment) :
    tripleP sid gid m p = true ↔
      (p.student_id = sid ∧ p.group_id = some gid ∧ p.month = m) := by
  simp [tripleP]

/-- The freshly created row of a step matches its own key. -/
theorem tripleP_mkCalcPayment (sid gid pid tid : Nat) (m : Month) (fd : ℚ)
    (t : DateYMD) : tripleP sid gid m (mkCalcPayment pid sid gid tid m fd t) = true := by
  simp [tripleP, mkCalcPayment]

/-- The prev-unpaid filter rejects every row of the target month, before
and after the step update. -/
theorem prevFilter_false (sid gid sid' gid' : Nat) (m : Month) (p : Payment)
    (hp : p.month = m) :
    (fun q => decide (q.student_id = sid ∧ q.group_id = some gid ∧ monthLT q.month m)) p
      = false := by
  simp only [decide_eq_false_iff_not]
  intro h
  exact monthLT_irrefl m (hp ▸ h.2.2)

/-- Any single step preserves prev-unpaid sums (it only writes rows of the
target month). -/
theorem prevUnpaid_applyStep (atts : List Attendance) (m : Month)
    (t : DateYMD) (pays : List Payment) (σ : StepD) (sid gid : Nat) :
    prevUnpaid (applyStep atts m t pays σ) sid gid m = prevUnpaid pays sid gid m := by
  unfold applyStep studentStep
  cases hfind : pays.find? (tripleP σ.sid σ.gid m) with
  | some p0 =>
      simp only [hfind]
      unfold prevUnpaid
      rw [filter_updateFirst]
      intro a ha
      have hm : a.month = m := ((tripleP_true_iff _ _ _ _).mp ha).2.2
      exact ⟨prevFilter_false sid gid σ.sid σ.gid m a hm,
        prevFilter_false sid gid σ.sid σ.gid m _ hm⟩
  | none =>
      simp only [hfind]
      unfold prevUnpaid
      rw [filter_append_of_neg]
      exact prevFilter_false sid gid σ.sid σ.gid m _ rfl

/-- Creation status agrees with the update status at amount zero. -/
theorem newStatus_eq_updStatus (fd price : ℚ) :
    newStatus fd = updStatus fd price 0 := by
  unfold newStatus updStatus
  by_cases h : fd ≤ 0
  · simp [h, not_lt.mpr h]
  · simp [h, lt_of_not_ge h]

/-- A step leaves the table settled for itself. -/
theorem settled_applyStep_self (atts : List Attendance) (m : Month)
    (t : DateYMD) (pays : List Payment) (σ : StepD) :
    SettledFor atts m (applyStep atts m t pays σ) σ := by
  have hprev := prevUnpaid_applyStep atts m t pays σ σ.sid σ.gid
  have hfd : fdOf atts (applyStep atts m t pays σ) m σ = fdOf atts pays m σ := by
    unfold fdOf
    rw [hprev]
  cases hfind : pays.find? (tripleP σ.sid σ.gid m) with
  | some p0 =>
      have hstate : applyStep atts m t pays σ =
          updateFirst (tripleP σ.sid σ.gid m)
            (fun p => { p with
              debt_amount := fdOf atts pays m σ,
              status := updStatus (fdOf atts pays m σ) σ.price p.amount })
            pays := by
        unfold applyStep studentStep fdOf
        simp only [hfind]
      have hfind' : (applyStep atts m t pays σ).find? (tripleP σ.sid σ.gid m) =
          some { p0 with
            debt_amount := fdOf atts pays m σ,
            status := updStatus (fdOf atts pays m σ) σ.price p0.amount } := by
        rw [hstate, find?_updateFirst, hfind]
        · rfl
        · intro a ha
          rw [tripleP_upd]
          exact ha
      exact ⟨_, hfind', by rw [hfd], by rw [hfd]⟩
  | none =>
      have hstate : applyStep atts m t pays σ = pays ++
          [mkCalcPayment (freshId (pays.map (fun p => p.id))) σ.sid σ.gid σ.tid m
            (fdOf atts pays m σ) t] := by
        unfold applyStep studentStep fdOf
        simp only [hfind]
      have hfind' : (applyStep atts m t pays σ).find? (tripleP σ.sid σ.gid m) =
          some (mkCalcPayment (freshId (pays.map (fun p => p.id))) σ.sid σ.gid σ.tid m
            (fdOf atts pays m σ) t) := by
        rw [hstate]
        exact find?_append_of_none _ _ _ hfind (tripleP_mkCalcPayment _ _ _ _ _ _ _)
      refine ⟨_, hfind', ?_, ?_⟩
      · rw [hfd]
        rfl
      · rw [hfd]
        exact newStatus_eq_updStatus _ _

/-- A step for one key does not disturb what find? sees for a different
key. -/
theorem find?_applyStep_other (atts : List Attendance) (m : Month)
    (t : DateYMD) (pays : List Payment) (σ τ : StepD) (hne : pairNe τ σ) :
    (applyStep atts m t pays σ).find? (tripleP τ.sid τ.gid m) =
      pays.find? (tripleP τ.sid τ.gid m) := by
  have hdisj : ∀ p, tripleP σ.sid σ.gid m p = true →
      tripleP τ.sid τ.gid m p = false := by
    intro p hp
    have h1 := (tripleP_true_iff _ _ _ _).mp hp
    simp only [tripleP, decide_eq_false_iff_not]
    intro h2
    rcases hne with h | h
    · exact h (h2.1.symm.trans h1.1)
    · exact h (Option.some.inj (h2.2.1.symm.trans h1.2.1))
  unfold applyStep studentStep
  cases hfind : pays.find? (tripleP σ.sid σ.gid m) with
  | some p0 =>
      simp only [hfind]
      apply find?_updateFirst_disjoint
      intro a ha
      exact ⟨hdisj a ha, by rw [tripleP_upd]; exact hdisj a ha⟩
  | none =>
      simp only [hfind]
      apply find?_append_of_neg
      exact hdisj _ (tripleP_mkCalcPayment _ _ _ _ _ _ _)

/-- Settledness for one key survives a step for a different key. -/
theorem settled_preserved (atts : List Attendance) (m : Month) (t : DateYMD)
    (pays : List Payment) (σ τ : StepD) (hne : pairNe τ σ)
    (hs : SettledFor atts m pays τ) :
    SettledFor atts m (applyStep atts m t pays σ) τ := by
  obtain ⟨p0, hfind, hdebt, hstatus⟩ := hs
  have hfd : fdOf atts (applyStep atts m t pays σ) m τ = fdOf atts pays m τ := by
    unfold fdOf
    rw [prevUnpaid_applyStep]
  refine ⟨p0, ?_, ?_, ?_⟩
  · rw [find?_applyStep_other atts m t pays σ τ hne]
    exact hfind
  · rw [hfd]
    exact hdebt
  · rw [hfd]
    exact hstatus

/-- A settled step is a no-op. -/
theorem applyStep_of_settled (atts : List Attendance) (m : Month)
    (t : DateYMD) (pays : List Payment) (σ : StepD)
    (hs : SettledFor atts m pays σ) : applyStep atts m t pays σ = pays := by
  obtain ⟨p0, hfind, hdebt, hstatus⟩ := hs
  unfold applyStep studentStep
  rw [hfind]
  apply updateFirst_of_find?_eq _ _ _ _ hfind
  have hthis : (monthlyDue σ.price (attRows atts σ.sid σ.gid m) +
      prevUnpaid pays σ.sid σ.gid m) = fdOf atts pays m σ := rfl
  rw [← hdebt] at hstatus
  rw [hthis, ← hdebt, ← hstatus]

/-- Settledness for one key survives a run of steps for other keys. -/
theorem settled_foldl_preserved (atts : List Attendance) (m : Month)
    (t : DateYMD) (pays : List Payment) (τ : StepD) (L : List StepD) :
    (∀ σ ∈ L, pairNe τ σ) → SettledFor atts m pays τ →
    SettledFor atts m (L.foldl (applyStep atts m t) pays) τ := by
  induction L generalizing pays with
  | nil => exact fun _ hs => hs
  | cons σ L ih =>
      intro hne hs
      simp only [List.foldl_cons]
      exact ih _ (fun σ' h => hne σ' (List.mem_cons_of_mem _ h))
        (settled_preserved atts m t pays σ τ (hne σ (List.mem_cons_self _ _)) hs)

/-- After a run over pairwise-distinct keys, the table is settled for every
step of the run. -/
theorem settled_after_foldl (atts : List Attendance) (m : Month)
    (t : DateYMD) (pays : List Payment) (L : List StepD) :
    L.Pairwise pairNe →
    ∀ σ ∈ L, SettledFor atts m (L.foldl (applyStep atts m t) pays) σ := by
  induction L generalizing pays with
  | nil => intro _ σ h; simp at h
  | cons σ0 L ih =>
      intro hL σ hσ
      rw [List.pairwise_cons] at hL
      simp only [List.foldl_cons]
      rcases List.mem_cons.mp hσ with h | h
      · subst h
        exact settled_foldl_preserved atts m t _ σ L (fun σ' h' => hL.1 σ' h')
          (settled_applyStep_self atts m t pays σ)
      · exact ih (applyStep atts m t pays σ0) hL.2 σ h

/-- A run over steps that are all settled already changes nothing. -/
theorem foldl_of_settled (atts : List Attendance) (m : Month) (t : DateYMD)
    (pays : List Payment) (L : List StepD)
    (hs : ∀ σ ∈ L, SettledFor atts m pays σ) :
    L.foldl (applyStep atts m t) pays = pays := by
  induction L with
  | nil => rfl
  | cons σ L ih =>
      simp only [List.foldl_cons]
      rw [applyStep_of_settled atts m t pays σ (hs σ (List.mem_cons_self _ _))]
      exact ih (fun σ' h => hs σ' (List.mem_cons_of_mem _ h))

/-- Folding over a flattened list. -/
theorem foldl_flatMap {α β γ : Type} (f : β → α → β) (g : γ → List α)
    (l : List γ) (b : β) :
    (l.flatMap g).foldl f b = l.foldl (fun acc x => (g x).foldl f acc) b := by
  induction l generalizing b with
  | nil => rfl
  | cons x l ih =>
      simp only [List.flatMap_cons, List.foldl_cons, List.foldl_append]
      exact ih _

/-- The per-group loop of calcMonthly equals folding the per-group step
descriptors. -/
theorem groupLoop_eq_foldl (db : DB) (m : Month) (t : DateYMD)
    (pays : List Payment) (g : Group) :
    groupLoop db m t pays g =
      (groupSteps db.courses db.users g).foldl (applyStep db.attendance m t) pays := by
  unfold groupLoop groupSteps
  by_cases h : groupPrice db.courses g ≤ 0
  · simp [h]
  · simp only [if_neg h]
    rw [List.foldl_map]
    rfl

/-- The payments table calcMonthly produces is the fold of all step
descriptors. -/
theorem calcMonthly_payments_eq (db : DB) (m : Month) (t : DateYMD) :
    (calcMonthly db m t).payments =
      (stepsOf db).foldl (applyStep db.attendance m t) db.payments := by
  unfold calcMonthly stepsOf
  show db.groups.foldl (groupLoop db m t) db.payments = _
  rw [foldl_flatMap]
  have : (fun acc g => (groupSteps db.courses db.users g).foldl
      (applyStep db.attendance m t) acc) = (fun pays g => groupLoop db m t pays g) := by
    funext pays g
    exact (groupLoop_eq_foldl db m t pays g).symm
  rw [this]

/-- calcMonthly leaves every table except payments untouched, so the other
components read in later runs coincide. -/
theorem calcMonthly_users (db : DB) (m : Month) (t : DateYMD) :
    (calcMonthly db m t).users = db.users := rfl

/-- Steps of a group carry the id of that group. -/
theorem gid_of_mem_groupSteps (courses : List Course) (users : List User)
    (g : Group) (σ : StepD) (h : σ ∈ groupSteps courses users g) :
    σ.gid = g.id := by
  unfold groupSteps at h
  by_cases hp : groupPrice courses g ≤ 0
  · rw [if_pos hp] at h
    simp at h
  · rw [if_neg hp] at h
    obtain ⟨u, _, rfl⟩ := List.mem_map.mp h
    rfl

/-- With distinct group ids and distinct user ids, the step descriptors of
a run touch pairwise-distinct (student, group) keys. -/
theorem pairwise_stepsOf (db : DB)
    (hg : (db.groups.map (fun g => g.id)).Nodup)
    (hu : (db.users.map (fun u => u.id)).Nodup) :
    (stepsOf db).Pairwise pairNe := by
  unfold stepsOf
  have husers : ∀ g : Group, ((studentsOf db.users g.id).map (fun u => u.id)).Nodup := by
    intro g
    exact hu.sublist (List.Sublist.map _ (List.filter_sublist _))
  have hgroup : ∀ g : Group, (groupSteps db.courses db.users g).Pairwise pairNe := by
    intro g
    unfold groupSteps
    by_cases hp : groupPrice db.courses g ≤ 0
    · simp [hp]
    · rw [if_neg hp]
      rw [List.pairwise_map]
      have := (List.pairwise_map (R := (fun a b => a ≠ b))
        (f := fun u : User => u.id)).mp (husers g)
      exact this.imp (fun h => Or.inl h)
  have main : ∀ gs : List Group, (gs.map (fun g => g.id)).Nodup →
      (gs.flatMap (groupSteps db.courses db.users)).Pairwise pairNe := by
    intro gs
    induction gs with
    | nil => simp
    | cons g gs ih =>
        intro hnd
        rw [List.map_cons, List.nodup_cons] at hnd
        rw [List.flatMap_cons, List.pairwise_append]
        refine ⟨hgroup g, ih hnd.2, ?_⟩
        intro σ hσ τ hτ
        obtain ⟨g', hg', hτ'⟩ := List.mem_flatMap.mp hτ
        right
        rw [gid_of_mem_groupSteps _ _ _ _ hσ, gid_of_mem_groupSteps _ _ _ _ hτ']
        intro hcontra
        exact hnd.1 (hcontra ▸ List.mem_map_of_mem (fun x => x.id) hg')
  exact main db.groups hg

/-- prev-unpaid sums are invariant across a whole run. -/
theorem prevUnpaid_foldl (atts : List Attendance) (m : Month) (t : DateYMD)
    (pays : List Payment) (L : List StepD) (sid gid : Nat) :
    prevUnpaid (L.foldl (applyStep atts m t) pays) sid gid m =
      prevUnpaid pays sid gid m := by
  induction L generalizing pays with
  | nil => rfl
  | cons σ L ih =>
      simp only [List.foldl_cons]
      rw [ih, prevUnpaid_applyStep]

/-- Membership of the step of a processed student in the run. -/
theorem step_mem_stepsOf (db : DB) (g : Group) (hmem : g ∈ db.groups)
    (hp : 0 < groupPrice db.courses g) (u : User) (humem : u ∈ db.users)
    (hgid : u.group_id = some g.id) (hrole : u.role = Role.student) :
    (⟨g.id, g.teacher_id, groupPrice db.courses g, u.id⟩ : StepD) ∈ stepsOf db := by
  unfold stepsOf
  refine List.mem_flatMap.mpr ⟨g, hmem, ?_⟩
  unfold groupSteps
  rw [if_neg (not_le.mpr hp)]
  refine List.mem_map.mpr ⟨u, ?_, rfl⟩
  exact List.mem_filter.mpr ⟨humem, by simp [hgid, hrole]⟩

/-- Main description of what one calculate-monthly run leaves for a
processed student: the first (student, group, month) row carries the debt
monthly-due plus unpaid sum of prior months, and a non-positive debt is
marked paid. -/
theorem calcMonthly_row (db : DB) (m : Month) (t : DateYMD)
    (hg : (db.groups.map (fun g => g.id)).Nodup)
    (hu : (db.users.map (fun u => u.id)).Nodup)
    (g : Group) (hmem : g ∈ db.groups) (hp : 0 < groupPrice db.courses g)
    (u : User) (humem : u ∈ db.users) (hgid : u.group_id = some g.id)
    (hrole : u.role = Role.student) :
    ∃ p0, (calcMonthly db m t).payments.find? (tripleP u.id g.id m) = some p0 ∧
      p0.debt_amount =
        monthlyDue (groupPrice db.courses g) (attRows db.attendance u.id g.id m) +
          prevUnpaid db.payments u.id g.id m ∧
      (p0.debt_amount ≤ 0 → p0.status = PaymentStatus.paid) := by
  have hσ := step_mem_stepsOf db g hmem hp u humem hgid hrole
  have hset := settled_after_foldl db.attendance m t db.payments (stepsOf db)
    (pairwise_stepsOf db hg hu) _ hσ
  rw [← calcMonthly_payments_eq] at hset
  obtain ⟨p0, hfind, hdebt, hstatus⟩ := hset
  have hfdval : fdOf db.attendance (calcMonthly db m t).payments m
      (⟨g.id, g.teacher_id, groupPrice db.courses g, u.id⟩ : StepD) =
      monthlyDue (groupPrice db.courses g) (attRows db.attendance u.id g.id m) +
        prevUnpaid db.payments u.id g.id m := by
    unfold fdOf
    rw [calcMonthly_payments_eq, prevUnpaid_foldl]
  refine ⟨p0, hfind, ?_, ?_⟩
  · rw [hdebt, hfdval]
  · intro hle
    rw [hdebt, hfdval] at hle
    rw [hstatus]
    unfold updStatus
    rw [hfdval, if_pos hle]

/-- C3: running calculate_monthly_payments twice for the same month, with
no payment posted and no attendance changed in between, leaves every
payment row of that month with the same debt_amount after the second run
as after the first: the second run reproduces the whole state (here for
any database whose group ids and user ids are distinct, the date of the second run
the second run arbitrary). -/
theorem claim_C3_calc_monthly_idempotent (db : DB) (m : Month)
    (t1 t2 : DateYMD)
    (hg : (db.groups.map (fun g => g.id)).Nodup)
    (hu : (db.users.map (fun u => u.id)).Nodup) :
    calcMonthly (calcMonthly db m t1) m t2 = calcMonthly db m t1 := by
  have hpay : (calcMonthly (calcMonthly db m t1) m t2).payments =
      (calcMonthly db m t1).payments := by
    rw [calcMonthly_payments_eq (calcMonthly db m t1) m t2]
    show (stepsOf db).foldl (applyStep db.attendance m t2)
        (calcMonthly db m t1).payments = (calcMonthly db m t1).payments
    apply foldl_of_settled
    intro σ hσ
    rw [calcMonthly_payments_eq]
    exact settled_after_foldl db.attendance m t1 db.payments (stepsOf db)
      (pairwise_stepsOf db hg hu) σ hσ
  have hsplit : calcMonthly (calcMonthly db m t1) m t2 =
      { calcMonthly db m t1 with
        payments := (calcMonthly (calcMonthly db m t1) m t2).payments } := rfl
  rw [hsplit, hpay]

/-- Witness for C3 at a concrete store: the database of claim C1 with one
group, one student and one excused absence. -/
theorem claim_C3_witness :
    calcMonthly (calcMonthly dbC1 ⟨2025, 3⟩ ⟨2025, 3, 20⟩) ⟨2025, 3⟩ ⟨2025, 4, 2⟩ =
      calcMonthly dbC1 ⟨2025, 3⟩ ⟨2025, 3, 20⟩ :=
  claim_C3_calc_monthly_idempotent dbC1 ⟨2025, 3⟩ ⟨2025, 3, 20⟩ ⟨2025, 4, 2⟩
    (by decide) (by decide)

/-- C1, counterexample: in dbC1 the student's only attendance row of the
month is an excused (sababli) absence, so the chargeable count of the
claim (attended plus unexcused) is zero and the claim predicts a charge of
0; calculate_monthly_payments nevertheless writes a debt of the full price
100, because its gate counts excused absences as recorded lessons. -/
theorem claim_C1_counterexample :
    ((calcMonthly dbC1 ⟨2025, 3⟩ ⟨2025, 3, 20⟩).payments.map (fun p => p.debt_amount))
        = [100] ∧
      specChargeableCount (attRows dbC1.attendance 1 1 ⟨2025, 3⟩) = 0 ∧
      (100 : ℚ) ≠ 0 := by
  refine ⟨?_, by decide, by norm_num⟩
  norm_num [calcMonthly, groupLoop, studentStep, groupPrice, studentsOf, attRows,
    monthlyDue, totalLessons, attendedCount, sababliCount, sababsizCount, reasonStr,
    prevUnpaid, tripleP, updStatus, newStatus, mkCalcPayment, freshId, updateFirst,
    pyRound2, roundHalfEven, monthOf, monthLT, dbC1, List.foldl, List.filter,
    List.find?]

/-- C1, amended: for every processed student (group with positive course
price, enrolled student, distinct primary keys) the monthly charge written
by calculate_monthly_payments is zero exactly when the month has NO
recorded lessons at all - attended plus excused plus unexcused - and is
the full rounded course price otherwise; excused (sababli) absences count
toward the gate, so a sababli-only month is charged in full.  The unpaid
sum of prior months is then added. -/
theorem claim_C1_charge_gate (db : DB) (m : Month) (t : DateYMD)
    (hg : (db.groups.map (fun g => g.id)).Nodup)
    (hu : (db.users.map (fun u => u.id)).Nodup)
    (g : Group) (hmem : g ∈ db.groups) (hp : 0 < groupPrice db.courses g)
    (u : User) (humem : u ∈ db.users) (hgid : u.group_id = some g.id)
    (hrole : u.role = Role.student) :
    ∃ p0, (calcMonthly db m t).payments.find? (tripleP u.id g.id m) = some p0 ∧
      p0.debt_amount =
        (if attendedCount (attRows db.attendance u.id g.id m) +
            sababliCount (attRows db.attendance u.id g.id m) +
            sababsizCount (attRows db.attendance u.id g.id m) = 0 then 0
         else pyRound2 (groupPrice db.courses g)) +
          prevUnpaid db.payments u.id g.id m := by
  obtain ⟨p0, hfind, hdebt, _⟩ :=
    calcMonthly_row db m t hg hu g hmem hp u humem hgid hrole
  exact ⟨p0, hfind, hdebt⟩

/-- Witness for the amended C1 theorem at the concrete store dbC1. -/
theorem claim_C1_witness :
    ∃ p0, (calcMonthly dbC1 ⟨2025, 3⟩ ⟨2025, 3, 20⟩).payments.find?
        (tripleP 1 1 ⟨2025, 3⟩) = some p0 ∧
      p0.debt_amount =
        (if attendedCount (attRows dbC1.attendance 1 1 ⟨2025, 3⟩) +
            sababliCount (attRows dbC1.attendance 1 1 ⟨2025, 3⟩) +
            sababsizCount (attRows dbC1.attendance 1 1 ⟨2025, 3⟩) = 0 then 0
         else pyRound2 (groupPrice dbC1.courses ⟨1, some 1, 9⟩)) +
          prevUnpaid dbC1.payments 1 1 ⟨2025, 3⟩ :=
  claim_C1_charge_gate dbC1 ⟨2025, 3⟩ ⟨2025, 3, 20⟩ (by decide) (by decide)
    ⟨1, some 1, 9⟩ (by decide) (by norm_num [groupPrice, dbC1, List.find?])
    { id := 1, username := "s1", role := Role.student, group_id := some 1,
      balance := none, teacher_percent := none, fee := none }
    (by decide) (by decide) (by decide)

/-- Rewriting every student's balance changes nothing
calculate_monthly_payments reads: its student filter looks only at
group_id and role, its steps only at the user id. -/
theorem stepsOf_reassign_balance (db : DB) (f : User → Option ℚ) :
    stepsOf { db with users := db.users.map (fun u => { u with balance := f u }) } =
      stepsOf db := by
  unfold stepsOf
  show db.groups.flatMap
      (groupSteps db.courses (db.users.map (fun u => { u with balance := f u }))) = _
  congr 1
  funext g
  unfold groupSteps studentsOf
  by_cases hp : groupPrice db.courses g ≤ 0
  · rw [if_pos hp, if_pos hp]
  · rw [if_neg hp, if_neg hp]
    rw [List.filter_map]
    have hpred : ((fun u : User => decide (u.group_id = some g.id ∧ u.role = Role.student)) ∘
        (fun u : User => { u with balance := f u })) =
        (fun u : User => decide (u.group_id = some g.id ∧ u.role = Role.student)) := by
      funext u
      rfl
    rw [hpred, List.map_map]
    rfl

/-- The payments table produced by calculate_monthly_payments does not
depend on any student's balance. -/
theorem calcMonthly_reassign_balance (db : DB) (m : Month) (t : DateYMD)
    (f : User → Option ℚ) :
    (calcMonthly { db with users := db.users.map (fun u => { u with balance := f u }) }
        m t).payments = (calcMonthly db m t).payments := by
  rw [calcMonthly_payments_eq, calcMonthly_payments_eq, stepsOf_reassign_balance]

/-- C2, counterexample: in dbC2 the student carries a credit balance of 50
and attends one lesson of the 100-priced course with no prior debt; the
claim predicts a debt of max(100 - 50, 0) = 50, but
calculate_monthly_payments writes 100 - the credit balance is never
consulted. -/
theorem claim_C2_counterexample :
    ((calcMonthly dbC2 ⟨2025, 3⟩ ⟨2025, 3, 20⟩).payments.map (fun p => p.debt_amount))
        = [100] ∧
      (dbC2.users.map (fun u => u.balance)) = [some 50] ∧
      specCarryForwardDebt 100 0 50 = 50 ∧
      (100 : ℚ) ≠ 50 := by
  refine ⟨?_, by norm_num [dbC2], by norm_num [specCarryForwardDebt], by norm_num⟩
  norm_num [calcMonthly, groupLoop, studentStep, groupPrice, studentsOf, attRows,
    monthlyDue, totalLessons, attendedCount, sababliCount, sababsizCount, reasonStr,
    prevUnpaid, tripleP, updStatus, newStatus, mkCalcPayment, freshId, updateFirst,
    pyRound2, roundHalfEven, monthOf, monthLT, dbC2, List.foldl, List.filter,
    List.find?]

/-- C2, amended: the unpaid debt sum of prior months is indeed added to the
month's charge, but a credit balance is never subtracted (and hence no
flooring at zero happens): the resulting payments table is identical under
any reassignment of every student's balance. -/
theorem claim_C2_carry_forward (db : DB) (m : Month) (t : DateYMD)
    (hg : (db.groups.map (fun g => g.id)).Nodup)
    (hu : (db.users.map (fun u => u.id)).Nodup)
    (g : Group) (hmem : g ∈ db.groups) (hp : 0 < groupPrice db.courses g)
    (u : User) (humem : u ∈ db.users) (hgid : u.group_id = some g.id)
    (hrole : u.role = Role.student) :
    (∃ p0, (calcMonthly db m t).payments.find? (tripleP u.id g.id m) = some p0 ∧
      p0.debt_amount =
        monthlyDue (groupPrice db.courses g) (attRows db.attendance u.id g.id m) +
          prevUnpaid db.payments u.id g.id m) ∧
    (∀ f : User → Option ℚ,
      (calcMonthly { db with users := db.users.map (fun u => { u with balance := f u }) }
          m t).payments = (calcMonthly db m t).payments) := by
  obtain ⟨p0, hfind, hdebt, _⟩ :=
    calcMonthly_row db m t hg hu g hmem hp u humem hgid hrole
  exact ⟨⟨p0, hfind, hdebt⟩, fun f => calcMonthly_reassign_balance db m t f⟩

/-- Witness for the amended C2 theorem at the concrete store dbC2. -/
theorem claim_C2_witness :
    (∃ p0, (calcMonthly dbC2 ⟨2025, 3⟩ ⟨2025, 3, 20⟩).payments.find?
        (tripleP 1 1 ⟨2025, 3⟩) = some p0 ∧
      p0.debt_amount =
        monthlyDue (groupPrice dbC2.courses ⟨1, some 1, 9⟩)
            (attRows dbC2.attendance 1 1 ⟨2025, 3⟩) +
          prevUnpaid dbC2.payments 1 1 ⟨2025, 3⟩) ∧
    (∀ f : User → Option ℚ,
      (calcMonthly { dbC2 with users := dbC2.users.map (fun u => { u with balance := f u }) }
          ⟨2025, 3⟩ ⟨2025, 3, 20⟩).payments =
        (calcMonthly dbC2 ⟨2025, 3⟩ ⟨2025, 3, 20⟩).payments) :=
  claim_C2_carry_forward dbC2 ⟨2025, 3⟩ ⟨2025, 3, 20⟩ (by decide) (by decide)
    ⟨1, some 1, 9⟩ (by decide) (by norm_num [groupPrice, dbC2, List.find?])
    { id := 1, username := "s1", role := Role.student, group_id := some 1,
      balance := some 50, teacher_percent := none, fee := none }
    (by decide) (by decide) (by decide)

/-- C6, counterexample: in dbC6 the student has zero attendance rows and
zero prior debt, but the group's course price is 0, so
calculate_monthly_payments skips the group entirely and produces NO
payment record at all (the claim predicts a record with debt 0 and status
paid for every such student). -/
theorem claim_C6_counterexample :
    (calcMonthly dbC6 ⟨2025, 3⟩ ⟨2025, 3, 20⟩).payments = [] ∧
      dbC6.attendance = [] ∧ dbC6.payments = [] ∧
      dbC6.users.map (fun u => u.group_id) = [some 1] := by
  refine ⟨?_, rfl, rfl, by decide⟩
  norm_num [calcMonthly, groupLoop, groupPrice, dbC6, List.foldl, List.find?]

/-- C6, amended: for a student in a group with a POSITIVE course price who
has zero attendance rows in the month and zero prior unpaid debt,
calculate_monthly_payments leaves a payment row for the month with
debt_amount 0 and status paid; students of zero-priced or course-less
groups are skipped and get no row. -/
theorem claim_C6_zero_attendance (db : DB) (m : Month) (t : DateYMD)
    (hg : (db.groups.map (fun g => g.id)).Nodup)
    (hu : (db.users.map (fun u => u.id)).Nodup)
    (g : Group) (hmem : g ∈ db.groups) (hp : 0 < groupPrice db.courses g)
    (u : User) (humem : u ∈ db.users) (hgid : u.group_id = some g.id)
    (hrole : u.role = Role.student)
    (hatt : attRows db.attendance u.id g.id m = [])
    (hprev : prevUnpaid db.payments u.id g.id m = 0) :
    ∃ p0, (calcMonthly db m t).payments.find? (tripleP u.id g.id m) = some p0 ∧
      p0.debt_amount = 0 ∧ p0.status = PaymentStatus.paid := by
  obtain ⟨p0, hfind, hdebt, hpaid⟩ :=
    calcMonthly_row db m t hg hu g hmem hp u humem hgid hrole
  rw [hatt, hprev] at hdebt
  have hdue : monthlyDue (groupPrice db.courses g) ([] : List Attendance) = 0 := by
    unfold monthlyDue totalLessons attendedCount sababliCount sababsizCount
    simp
  rw [hdue] at hdebt
  norm_num at hdebt
  exact ⟨p0, hfind, hdebt, hpaid (le_of_eq hdebt)⟩

/-- Witness for the amended C6 theorem at the concrete store dbC6w. -/
theorem claim_C6_witness :
    ∃ p0, (calcMonthly dbC6w ⟨2025, 3⟩ ⟨2025, 3, 20⟩).payments.find?
        (tripleP 1 1 ⟨2025, 3⟩) = some p0 ∧
      p0.debt_amount = 0 ∧ p0.status = PaymentStatus.paid :=
  claim_C6_zero_attendance dbC6w ⟨2025, 3⟩ ⟨2025, 3, 20⟩ (by decide) (by decide)
    ⟨1, some 1, 9⟩ (by decide) (by norm_num [groupPrice, dbC6w, List.find?])
    { id := 1, username := "s1", role := Role.student, group_id := some 1,
      balance := none, teacher_percent := none, fee := none }
    (by decide) (by decide) (by decide) (by decide)
    (by norm_num [prevUnpaid, dbC6w])

/-- C4, counterexample: posting the same manual payment twice through
POST /payments/ leaves TWO payment rows for the same
(student, group, month) triple - create_payment never looks for an
existing row, so the at-most-one invariant does not hold under manual
posting. -/
theorem claim_C4_counterexample :
    ((create_payment dbC4 Role.admin 50 (some 1) (some 1) (some ⟨2025, 3⟩)
        ⟨2025, 3, 10⟩).bind
      (fun db1 => create_payment db1 Role.admin 50 (some 1) (some 1)
        (some ⟨2025, 3⟩) ⟨2025, 3, 10⟩)).toOption.map
      (fun db2 => (db2.payments.filter (tripleP 1 1 ⟨2025, 3⟩)).length) = some 2 ∧
    1 < 2 := by
  refine ⟨?_, by norm_num⟩
  norm_num +decide [create_payment, resolveGroup, createStatus, groupPrice, freshId,
    updateFirst, orZero, monthOf, tripleP, dbC4, Except.bind, Except.toOption,
    List.find?, List.filter, max_def]

/-- C4, amended: POST /payments/ never merges into an existing payment
row: every successful call appends exactly one new row and leaves all
previously existing payment rows untouched, so repeated posts for the same
(student, group, month) accumulate duplicate rows and the at-most-one
invariant is maintained only by the calculate/generate endpoints, which
upsert. -/
theorem claim_C4_create_appends (db : DB) (callerRole : Role) (amount : ℚ)
    (student_id group_id : Option Nat) (month? : Option Month) (today : DateYMD)
    (db' : DB)
    (h : create_payment db callerRole amount student_id group_id month? today =
      .ok db') :
    ∃ p, db'.payments = db.payments ++ [p] := by
  unfold create_payment at h
  split at h
  · exact Except.noConfusion h
  · split at h
    · exact Except.noConfusion h
    · split at h
      · exact Except.noConfusion h
      · split at h
        · exact Except.noConfusion h
        · split at h
          · exact Except.noConfusion h
          · dsimp only at h
            injection h with h2
            subst h2
            exact ⟨_, rfl⟩

/-- Witness for the amended C4 theorem at the concrete store dbC4. -/
theorem claim_C4_witness :
    ∃ p, (DB.mk dbC4.users dbC4.courses dbC4.groups dbC4.attendance
        (dbC4.payments ++
          [{ id := 1, amount := 50, student_id := 1, teacher_id := some 9,
             group_id := some 1, month := ⟨2025, 3⟩,
             status := PaymentStatus.partpaid, debt_amount := 50,
             created_at := ⟨2025, 3, 10⟩, paid_at := none }])
        dbC4.payroll dbC4.payroll_payments dbC4.salary_settings).payments =
      dbC4.payments ++ [p] :=
  claim_C4_create_appends dbC4 Role.admin 50 (some 1) (some 1) (some ⟨2025, 3⟩)
    ⟨2025, 3, 10⟩ _ (by
      norm_num +decide [create_payment, resolveGroup, createStatus, groupPrice,
        freshId, orZero, monthOf, dbC4, List.find?, max_def])

/-- A pointwise-reflexive relation holds between a list and itself. -/
theorem forall₂_self {α : Type} (R : α → α → Prop) (l : List α)
    (h : ∀ a ∈ l, R a a) : List.Forall₂ R l l := by
  induction l with
  | nil => exact List.Forall₂.nil
  | cons a as ih =>
      exact List.Forall₂.cons (h a (List.mem_cons_self _ _))
        (ih (fun b hb => h b (List.mem_cons_of_mem _ hb)))

/-- updateFirst relates pointwise to the original list whenever both the
identity and the update respect the relation. -/
theorem forall₂_updateFirst {α : Type} (R : α → α → Prop) (P : α → Bool)
    (f : α → α) (l : List α) (hrefl : ∀ a ∈ l, R a a)
    (hf : ∀ a ∈ l, R a (f a)) : List.Forall₂ R l (updateFirst P f l) := by
  induction l with
  | nil => exact List.Forall₂.nil
  | cons a as ih =>
      unfold updateFirst
      by_cases ha : P a
      · rw [if_pos ha]
        exact List.Forall₂.cons (hf a (List.mem_cons_self _ _))
          (forall₂_self R as (fun b hb => hrefl b (List.mem_cons_of_mem _ hb)))
      · rw [if_neg ha]
        exact List.Forall₂.cons (hrefl a (List.mem_cons_self _ _))
          (ih (fun b hb => hrefl b (List.mem_cons_of_mem _ hb))
            (fun b hb => hf b (List.mem_cons_of_mem _ hb)))

/-- Crediting a nonnegative extra through (balance or 0) never decreases
the read balance. -/
theorem orZero_le_credit (b : Option ℚ) (x : ℚ) (hx : 0 ≤ x) :
    orZero b ≤ orZero (some (orZero b + x)) := by
  show orZero b ≤ orZero b + x
  linarith

/-- C7, counterexample: payment row 7 of dbC7 is already fully paid
(debt_amount 0), so a further payment of 10 exceeds the amount due by 10
and exact crediting from the carried balance of 50 would give 50 + 10 =
60; mark_payment_as_paid instead credits cumulative-amount-minus-price =
160 - 100 = 60 AGAIN, ending at 110. -/
theorem claim_C7_counterexample :
    (mark_payment_as_paid dbC7 Role.admin 7 10 99).toOption.map
        (fun db' => db'.users.map (fun u => u.balance)) = some [some 110] ∧
      (dbC7.payments.map (fun p => p.debt_amount)).head? = some 0 ∧
      (110 : ℚ) ≠ 50 + (10 - 0) := by
  refine ⟨?_, by norm_num [dbC7], by norm_num⟩
  norm_num +decide [mark_payment_as_paid, resolvePrice, groupPrice, orZero,
    updateFirst, dbC7, Except.toOption, List.find?]

/-- C7, amended: the two payment endpoints never decrease any student's
balance (so no balance can be driven negative by them), but the credited
amount follows the course-price rule rather than exact excess over the
amount due: whenever the cumulative amount of the row exceeds a nonzero
course price, mark_payment_as_paid credits cumulative-minus-price in full
(again on every further overpaying call), and when the course price is
zero nothing is ever credited. -/
theorem claim_C7_balance_credit (db : DB) :
    (∀ (role : Role) (amount : ℚ) (sid gid : Option Nat) (m? : Option Month)
      (t : DateYMD) (db' : DB),
      create_payment db role amount sid gid m? t = .ok db' →
        List.Forall₂ balRel db.users db'.users) ∧
    (∀ (role : Role) (pid : Nat) (amount : ℚ) (now : Nat) (db' : DB),
      mark_payment_as_paid db role pid amount now = .ok db' →
        List.Forall₂ balRel db.users db'.users) ∧
    (∀ (role : Role) (pid : Nat) (amount : ℚ) (now : Nat) (db' : DB) (p : Payment),
      db.payments.find? (fun q => decide (q.id = pid)) = some p →
      (∃ u0, db.users.find? (fun u => decide (u.id = p.student_id)) = some u0) →
      resolvePrice db p ≠ 0 → p.amount + amount > resolvePrice db p →
      mark_payment_as_paid db role pid amount now = .ok db' →
        sumBalances db' = sumBalances db + (p.amount + amount - resolvePrice db p)) ∧
    (∀ (role : Role) (pid : Nat) (amount : ℚ) (now : Nat) (db' : DB) (p : Payment),
      db.payments.find? (fun q => decide (q.id = pid)) = some p →
      resolvePrice db p = 0 →
      mark_payment_as_paid db role pid amount now = .ok db' →
        db'.users = db.users) := by
  refine ⟨?_, ?_, ?_, ?_⟩
  · intro role amount sid gid m? t db' h
    unfold create_payment at h
    split at h
    · exact Except.noConfusion h
    · split at h
      · exact Except.noConfusion h
      · split at h
        · exact Except.noConfusion h
        · split at h
          · exact Except.noConfusion h
          · split at h
            · exact Except.noConfusion h
            · dsimp only at h
              injection h with h2
              subst h2
              dsimp only
              split
              · next hcond =>
                  apply forall₂_updateFirst
                  · exact fun a _ => ⟨rfl, le_refl _⟩
                  · exact fun a _ => ⟨rfl, orZero_le_credit a.balance _
                      (sub_nonneg.mpr (le_of_lt hcond.2))⟩
              · exact forall₂_self _ _ (fun a _ => ⟨rfl, le_refl _⟩)
  · intro role pid amount now db' h
    unfold mark_payment_as_paid at h
    split at h
    · exact Except.noConfusion h
    · split at h
      · exact Except.noConfusion h
      · split at h
        · exact Except.noConfusion h
        · next p hfp =>
            dsimp only at h
            injection h with h2
            subst h2
            dsimp only
            split
            · next hcond =>
                apply forall₂_updateFirst
                · exact fun a _ => ⟨rfl, le_refl _⟩
                · exact fun a _ => ⟨rfl, orZero_le_credit a.balance _
                    (sub_nonneg.mpr (le_of_lt hcond.2))⟩
            · exact forall₂_self _ _ (fun a _ => ⟨rfl, le_refl _⟩)
  · intro role pid amount now db' p hfp hfu hne hgt h
    obtain ⟨u0, hu0⟩ := hfu
    unfold mark_payment_as_paid at h
    split at h
    · exact Except.noConfusion h
    · split at h
      · exact Except.noConfusion h
      · rw [hfp] at h
        dsimp only at h
        injection h with h2
        subst h2
        show sumBalances _ = _
        unfold sumBalances
        dsimp only
        rw [if_pos ⟨hne, hgt⟩]
        rw [sum_map_updateFirst (fun u => orZero u.balance) _ _ _ u0 hu0]
        show (db.users.map (fun u => orZero u.balance)).sum - orZero u0.balance +
            orZero (some (orZero u0.balance + (p.amount + amount - resolvePrice db p))) = _
        unfold orZero
        ring
  · intro role pid amount now db' p hfp hprice h
    unfold mark_payment_as_paid at h
    split at h
    · exact Except.noConfusion h
    · split at h
      · exact Except.noConfusion h
      · rw [hfp] at h
        dsimp only at h
        injection h with h2
        subst h2
        show (if _ then _ else db.users) = db.users
        rw [if_neg]
        intro hcond
        exact hcond.1 hprice

/-- Witness for the amended C7 theorem: the overpaying mark-paid call on
dbC7 row 7 succeeds, keeps every balance non-decreasing, and credits
cumulative-minus-price. -/
theorem claim_C7_witness :
    mark_payment_as_paid dbC7 Role.admin 7 10 99 = .ok dbC7m ∧
      List.Forall₂ balRel dbC7.users dbC7m.users ∧
      sumBalances dbC7m = sumBalances dbC7 + (150 + 10 - 100) := by
  have hrun : mark_payment_as_paid dbC7 Role.admin 7 10 99 = .ok dbC7m := by
    norm_num +decide [mark_payment_as_paid, resolvePrice, groupPrice, orZero,
      updateFirst, dbC7, dbC7m, List.find?]
  refine ⟨hrun, ?_, ?_⟩
  · exact (claim_C7_balance_credit dbC7).2.1 Role.admin 7 10 99 dbC7m hrun
  · exact (claim_C7_balance_credit dbC7).2.2.1 Role.admin 7 10 99 dbC7m _ rfl
      ⟨_, rfl⟩ (by norm_num [resolvePrice, groupPrice, dbC7, List.find?])
      (by norm_num [resolvePrice, groupPrice, dbC7, List.find?]) hrun

/-- C10: for a payment whose group has no course (or a zero course price),
mark_payment_as_paid with any positive amount marks the row paid with
debt_amount 0, however small the amount: the remaining-due computation is
0 whenever the course price is 0. -/
theorem claim_C10_zero_price_paid (db : DB) (role : Role) (pid : Nat)
    (amount : ℚ) (now : Nat)
    (hrole : role = Role.manager ∨ role = Role.admin) (hamt : 0 < amount)
    (p : Payment) (hfp : db.payments.find? (fun q => decide (q.id = pid)) = some p)
    (hprice : resolvePrice db p = 0) :
    ∃ db', mark_payment_as_paid db role pid amount now = .ok db' ∧
      ∃ p', db'.payments.find? (fun q => decide (q.id = pid)) = some p' ∧
        p'.status = PaymentStatus.paid ∧ p'.debt_amount = 0 ∧
        p'.amount = p.amount + amount := by
  unfold mark_payment_as_paid
  rw [if_neg (not_not_intro hrole), if_neg (not_not_intro hamt), hfp]
  dsimp only
  simp only [hprice]
  norm_num
  have hup : (updateFirst (fun q => decide (q.id = pid))
      (fun q => { q with
        amount := p.amount + amount, status := PaymentStatus.paid,
        debt_amount := 0, paid_at := some now }) db.payments).find?
      (fun q => decide (q.id = pid)) =
      some { p with
        amount := p.amount + amount, status := PaymentStatus.paid,
        debt_amount := 0, paid_at := some now } := by
    rw [find?_updateFirst, hfp]
    · rfl
    · exact fun a ha => ha
  exact ⟨_, hup, rfl, rfl, rfl⟩

/-- Witness for C10 at dbC7 row 8, whose group has no course. -/
theorem claim_C10_witness :
    ∃ db', mark_payment_as_paid dbC7 Role.admin 8 5 99 = .ok db' ∧
      ∃ p', db'.payments.find? (fun q => decide (q.id = 8)) = some p' ∧
        p'.status = PaymentStatus.paid ∧ p'.debt_amount = 0 ∧
        p'.amount = (0 : ℚ) + 5 :=
  claim_C10_zero_price_paid dbC7 Role.admin 8 5 99 (Or.inr rfl) (by norm_num)
    _ rfl (by norm_num [resolvePrice, groupPrice, dbC7, List.find?])

/-- C8: marking a payroll row paid succeeds at most once: after a
successful POST /payroll/id/pay, a second attempt on the same row fails
with a 400 (Already paid) error, and the failed attempt leaves the store -
hence the status and paid_at of the row - unchanged. -/
theorem claim_C8_pay_once (db : DB) (cid1 cid2 pid : Nat) (amt1 amt2 : ℚ)
    (now1 now2 : Nat) (db' : DB)
    (h : pay_salary db Role.admin cid1 pid amt1 now1 = .ok db') :
    pay_salary db' Role.admin cid2 pid amt2 now2 = .error 400 ∧
      resultState db' (pay_salary db' Role.admin cid2 pid amt2 now2) = db' := by
  unfold pay_salary at h
  rw [if_neg (not_not_intro rfl)] at h
  have hsecond : pay_salary db' Role.admin cid2 pid amt2 now2 = .error 400 := by
    cases hf : db.payroll.find? (fun r => decide (r.id = pid)) with
    | none =>
        rw [hf] at h
        exact Except.noConfusion h
    | some row =>
        rw [hf] at h
        dsimp only at h
        split at h
        · exact Except.noConfusion h
        · injection h with h2
          subst h2
          unfold pay_salary
          rw [if_neg (not_not_intro rfl)]
          have hf' : (updateFirst (fun r => decide (r.id = pid))
              (fun r => { r with status := "paid", paid_at := some now1 })
              db.payroll).find? (fun r => decide (r.id = pid)) =
              some { row with status := "paid", paid_at := some now1 } := by
            rw [find?_updateFirst, hf]
            · rfl
            · exact fun a ha => ha
          show (match (updateFirst (fun r => decide (r.id = pid))
              (fun r => { r with status := "paid", paid_at := some now1 })
              db.payroll).find? (fun r => decide (r.id = pid)) with
            | none => Except.error 404
            | some row => if row.status = "paid" then Except.error 400
                else _) = Except.error 400
          rw [hf']
          dsimp only
          rw [if_pos rfl]
  exact ⟨hsecond, by rw [resultState, hsecond]; rfl⟩

/-- Witness for C8 at the concrete store dbC8. -/
theorem claim_C8_witness :
    pay_salary dbC8p Role.admin 1 3 500 78 = .error 400 ∧
      resultState dbC8p (pay_salary dbC8p Role.admin 1 3 500 78) = dbC8p :=
  claim_C8_pay_once dbC8 1 1 3 500 500 77 78 dbC8p (by
    norm_num +decide [pay_salary, updateFirst, dbC8, dbC8p, List.find?])

/-- Every teacher of the list gets a row in the generated payroll rows. -/
theorem mem_mkTeacherRows (db : DB) (settings : SalarySetting) (m : Month) :
    ∀ (i0 : Nat) (ts : List User), ∀ t ∈ ts,
      ∃ i, teacherPayrollRow db settings m i t ∈ mkTeacherRows db settings m i0 ts := by
  intro i0 ts
  induction ts generalizing i0 with
  | nil => simp
  | cons a as ih =>
      intro t ht
      rcases List.mem_cons.mp ht with h | h
      · subst h
        exact ⟨i0, List.mem_cons_self _ _⟩
      · obtain ⟨i, hi⟩ := ih (i0 + 1) t h
        exact ⟨i, List.mem_cons_of_mem _ hi⟩

/-- C5, counterexample: in dbC5 the teacher's personal override is 80
percent and the global setting is 50 percent; the claim predicts earned =
100 x 80 percent = 80, but calculate_payroll pays 100 x 50 percent = 50 -
User.teacher_percent is never consulted. -/
theorem claim_C5_counterexample :
    (calc_payroll_teachers dbC5 Role.admin "2025-03").toOption.map
        (fun db' => db'.payroll.map (fun r => r.earned)) = some [50] ∧
      claimTeacherPercent
        { id := 2, username := "t1", role := Role.teacher, group_id := none,
          balance := none, teacher_percent := some 80, fee := none }
        { id := 1, teacher_percent := 50, manager_active_percent := 10,
          manager_new_percent := 25 } = 80 ∧
      pyRound2 (100 * (80 / 100)) = 80 ∧ (50 : ℚ) ≠ 80 := by
  have hparse : parse_month "2025-03" = .ok (⟨2025, 3⟩, ⟨2025, 4⟩) := rfl
  refine ⟨?_, by norm_num [claimTeacherPercent], ?_, by norm_num⟩
  · norm_num +decide [calc_payroll_teachers, hparse, latestSetting, mkTeacherRows,
      teacherPayrollRow, teacherGroupIds, paymentsSumTeacher, attendanceRate,
      presentCount, totalAttCount, pyRound2, roundHalfEven, freshId, monthOf,
      dbC5, Except.toOption, List.foldl, List.filter, List.find?]
  · norm_num [pyRound2, roundHalfEven]

/-- C5, amended: in the teacher section of calculate_payroll every
teacher's earned amount is the sum of the month's payments across their
groups times the GLOBAL percentage (SalarySetting.teacher_percent, or its
default when no settings row exists); the per-teacher override column
User.teacher_percent is never read, whatever its value. -/
theorem claim_C5_global_percent (db : DB) (monthStr : String) (role : Role)
    (db' : DB) (m mEnd : Month)
    (h : calc_payroll_teachers db role monthStr = .ok db')
    (hparse : parse_month monthStr = .ok (m, mEnd)) :
    ∀ t ∈ db.users, t.role = Role.teacher →
      ∃ r ∈ db'.payroll, r.user_id = t.id ∧ r.month = m ∧
        r.earned = pyRound2 (paymentsSumTeacher db.payments
          (teacherGroupIds db.groups t.id) m *
          ((latestSetting db.salary_settings).teacher_percent / 100)) := by
  intro t ht hrole
  unfold calc_payroll_teachers at h
  split at h
  · exact Except.noConfusion h
  · rw [hparse] at h
    dsimp only at h
    injection h with h2
    subst h2
    have htm : t ∈ db.users.filter (fun u => decide (u.role = Role.teacher)) :=
      List.mem_filter.mpr ⟨ht, by simp [hrole]⟩
    obtain ⟨i, hi⟩ := mem_mkTeacherRows db (latestSetting db.salary_settings) m
      (freshId ((db.payroll.filter (fun r => decide (¬ r.month = m))).map
        (fun r => r.id)))
      (db.users.filter (fun u => decide (u.role = Role.teacher))) t htm
    refine ⟨teacherPayrollRow db (latestSetting db.salary_settings) m i t, ?_,
      rfl, rfl, rfl⟩
    exact List.mem_append_right _ hi

/-- Witness for the amended C5 theorem at the concrete store dbC5. -/
theorem claim_C5_witness :
    ∃ r ∈ dbC5p.payroll, r.user_id = 2 ∧ r.month = ⟨2025, 3⟩ ∧
      r.earned = pyRound2 (paymentsSumTeacher dbC5.payments
        (teacherGroupIds dbC5.groups 2) ⟨2025, 3⟩ *
        ((latestSetting dbC5.salary_settings).teacher_percent / 100)) := by
  have hparse : parse_month "2025-03" = .ok (⟨2025, 3⟩, ⟨2025, 4⟩) := rfl
  have hrun : calc_payroll_teachers dbC5 Role.admin "2025-03" = .ok dbC5p := by
    norm_num +decide [calc_payroll_teachers, hparse, latestSetting, mkTeacherRows,
      teacherPayrollRow, teacherGroupIds, paymentsSumTeacher, attendanceRate,
      presentCount, totalAttCount, pyRound2, roundHalfEven, freshId, monthOf,
      dbC5, dbC5p, List.foldl, List.filter, List.find?]
  exact claim_C5_global_percent dbC5 "2025-03" Role.admin dbC5p ⟨2025, 3⟩
    ⟨2025, 4⟩ hrun hparse
    { id := 2, username := "t1", role := Role.teacher, group_id := none,
      balance := none, teacher_percent := some 80, fee := none }
    (by decide) rfl

/-- C9, counterexample: the string 999-1 is not of the form YYYY-MM (the
claim would have it rejected with 400), yet parse_month accepts it -
int() is happy with any dash-separated pair of integers that makes a
valid datetime. -/
theorem claim_C9_counterexample :
    parse_month "999-1" = .ok (⟨999, 1⟩, ⟨999, 2⟩) ∧
      specFormYYYYMM "999-1" = false :=
  ⟨rfl, rfl⟩

/-- C9, amended: duplicate-username student creation and duplicate
(group, date) attendance creation are rejected with 400 and leave the
store untouched; parse_month rejects with 400 anything that is not two
dash-separated int()-parsable pieces forming a valid calendar year-month
(equivalently: whatever it accepts is a real month, 1-12, year 1-9999),
but this is weaker than the YYYY-MM format of the claim - strings such as
999-1 are accepted. -/
theorem claim_C9_reject400 :
    (∀ (db : DB) (role : Role) (uname : String) (cid gid : Option Nat)
      (fee : Option ℚ),
      (role = Role.admin ∨ role = Role.manager) →
      (∃ u ∈ db.users, u.username = uname) →
      create_student db role uname cid gid fee = .error 400 ∧
        resultState db (create_student db role uname cid gid fee) = db) ∧
    (∀ (db : DB) (role : Role) (callerId gid : Nat) (records : List AttRecordIn)
      (date? : Option DateYMD) (today : DateYMD),
      (role = Role.teacher ∨ role = Role.admin ∨ role = Role.manager) →
      (db.groups.find? (fun g => decide (g.id = gid))).isSome →
      (∃ a ∈ db.attendance, a.group_id = gid ∧ a.date = date?.getD today) →
      create_attendance db role callerId gid records date? today = .error 400 ∧
        resultState db (create_attendance db role callerId gid records date? today)
          = db) ∧
    (∀ (s : String) (M E : Month), parse_month s = .ok (M, E) →
      1 ≤ M.m ∧ M.m ≤ 12 ∧ 1 ≤ M.y ∧ M.y ≤ 9999) := by
  refine ⟨?_, ?_, ?_⟩
  · intro db role uname cid gid fee hrole hdup
    have hfind : (db.users.find? (fun u => decide (u.username = uname))).isSome := by
      rw [List.find?_isSome]
      obtain ⟨u, hu, he⟩ := hdup
      exact ⟨u, hu, by simp [he]⟩
    have hres : create_student db role uname cid gid fee = .error 400 := by
      unfold create_student
      rw [if_neg (not_not_intro hrole), if_pos hfind]
    exact ⟨hres, by rw [resultState, hres]; rfl⟩
  · intro db role callerId gid records date? today hrole hgrp hdup
    have hres : create_attendance db role callerId gid records date? today =
        .error 400 := by
      unfold create_attendance
      rw [if_neg (not_not_intro hrole)]
      obtain ⟨g, hg⟩ := Option.isSome_iff_exists.mp hgrp
      rw [hg]
      dsimp only
      rw [if_pos]
      rw [List.find?_isSome]
      obtain ⟨a, ha, he1, he2⟩ := hdup
      exact ⟨a, ha, by simp [he1, he2]⟩
    exact ⟨hres, by rw [resultState, hres]; rfl⟩
  · intro s M E h
    unfold parse_month at h
    split at h
    · split at h
      · split at h
        · next hcond =>
            injection h with h2
            have hM : M = ⟨_, _⟩ := (Prod.mk.injEq _ _ _ _).mp h2.symm |>.1
            subst hM
            obtain ⟨h1, h2, h3, h4⟩ := hcond
            dsimp only
            omega
        · exact Except.noConfusion h
      · exact Except.noConfusion h
    · exact Except.noConfusion h

/-- Witness for the amended C9 theorem: duplicate username bob, duplicate
attendance for group 1 on 2025-03-07, and the accepted month 2025-03 is a
valid calendar month. -/
theorem claim_C9_witness :
    (create_student dbC9 Role.admin "bob" none none none = .error 400 ∧
      resultState dbC9 (create_student dbC9 Role.admin "bob" none none none)
        = dbC9) ∧
    (create_attendance dbC9 Role.teacher 9 1 [] (some ⟨2025, 3, 7⟩) ⟨2025, 3, 8⟩
        = .error 400 ∧
      resultState dbC9 (create_attendance dbC9 Role.teacher 9 1 []
        (some ⟨2025, 3, 7⟩) ⟨2025, 3, 8⟩) = dbC9) ∧
    (1 ≤ 3 ∧ 3 ≤ 12 ∧ 1 ≤ 2025 ∧ 2025 ≤ 9999) :=
  ⟨claim_C9_reject400.1 dbC9 Role.admin "bob" none none none (Or.inl rfl)
      ⟨{ id := 1, username := "bob", role := Role.student, group_id := none,
         balance := none, teacher_percent := none, fee := none },
        by decide, rfl⟩,
    claim_C9_reject400.2.1 dbC9 Role.teacher 9 1 [] (some ⟨2025, 3, 7⟩)
      ⟨2025, 3, 8⟩ (Or.inl rfl) (by decide)
      ⟨{ id := 1, student_id := 5, teacher_id := 9, group_id := 1,
         date := ⟨2025, 3, 7⟩, status := "present", reason := none },
        by decide, rfl, rfl⟩,
    claim_C9_reject400.2.2 "2025-03" ⟨2025, 3⟩ ⟨2025, 4⟩ rfl⟩

end LMS
